import Mathlib

/-!
# MathFuncParamChecker

A shallow embedding of `MathFuncParamChecker.cpp`, a Clang Static Analyzer
checker for the arguments of `sqrt` and `pow` (SEI CERT C rule FLP32-C), and a
verification of its decision logic.

The analyzer engine is an external collaborator.  Every engine entry point the
checker calls is a field of `CheckerContext`, named after the C++ method, and
the theorems quantify over all of them.  The checker's own effects are made
explicit: its two mutable `BugType` fields are threaded through as a
`MathFuncParamChecker` value, and the reports handed to `C.emitReport` are
returned as a list, in emission order.
-/

namespace MathFuncParamChecker

/-! ## The engine's data, as far as the checker looks at it -/

/-- A `clang::SourceRange`: begin and end location. -/
structure SourceRange where
  Begin : Nat
  End : Nat
deriving DecidableEq, Repr

/-- A `clang::QualType`, reduced to the two predicates the checker queries. -/
structure QualType where
  isArithmeticType : Bool
  isIntegerType : Bool
deriving DecidableEq, Repr

/-- A `const clang::Expr *` that is not null: the node's identity, its static
type and its source range. -/
structure Expr where
  node : Nat
  getType : QualType
  getSourceRange : SourceRange
deriving DecidableEq, Repr

/-- A `ProgramStateRef` that is not null. -/
structure ProgramState where
  id : Nat
deriving DecidableEq, Repr

/-- An `ExplodedNode *` that is not null. -/
structure ExplodedNode where
  id : Nat
deriving DecidableEq, Repr

/-- A `DefinedSVal`: a symbolic value that is neither undefined nor unknown. -/
structure DefinedSVal where
  sym : Nat
deriving DecidableEq, Repr

/-- An `SVal`. -/
inductive SVal where
  | UndefinedVal
  | UnknownVal
  | Defined (v : DefinedSVal)
deriving DecidableEq, Repr

/-- The `SVal::getAs<DefinedSVal>()` conversion. -/
def SVal.getAsDefinedSVal : SVal → Option DefinedSVal
  | .Defined v => some v
  | _ => none

/-- The `Decl::Kind` of a `FunctionDecl`: the plain function or one of its subclasses. -/
inductive DeclKind where
  | Function
  | CXXDeductionGuide
  | CXXMethod
  | CXXConstructor
  | CXXConversion
  | CXXDestructor
deriving DecidableEq, Repr

/-- A `DeclContext`, reduced to whether it is a `NamespaceDecl`. -/
structure DeclContext where
  isNamespaceDecl : Bool
deriving DecidableEq, Repr

/-- A `const FunctionDecl *` that is not null. -/
structure FunctionDecl where
  decl : Nat
  getKind : DeclKind
  getEnclosingNamespaceContext : Option DeclContext
deriving DecidableEq, Repr

/-- A `const CallExpr *`: the node's identity and its argument slots; a slot
holds an expression pointer, which may be null. -/
structure CallExpr where
  node : Nat
  Args : List (Option Expr)
deriving DecidableEq, Repr

/-- The ways an evaluation can leave defined behaviour. -/
inductive Fault where
  | ArgAccessOutOfRange
  | NullBugType
deriving DecidableEq, Repr

/-- The `CallExpr::getArg` accessor: `assert(Arg < getNumArgs())`, then the slot. -/
def CallExpr.getArg (CE : CallExpr) (Arg : Nat) : Except Fault (Option Expr) :=
  match CE.Args.get? Arg with
  | some slot => .ok slot
  | none => .error .ArgAccessOutOfRange

/-- A `BugType` object: `id` is the identity of the allocated object,
`Description` the name given to the constructor (what `getDescription()`
returns), `Category` the category given to the constructor. -/
structure BugType where
  id : Nat
  Description : String
  Category : String
deriving DecidableEq, Repr

/-- The `BugType::getDescription` accessor. -/
def BugType.getDescription (BT : BugType) : String := BT.Description

/-- A `PathSensitiveBugReport`: the bug type it was built from, its
description, its error node and the ranges added to it. -/
structure PathSensitiveBugReport where
  BT : BugType
  Description : String
  ErrorNode : ExplodedNode
  Ranges : List SourceRange
deriving DecidableEq, Repr

/-- The `addRange` method of a report. -/
def PathSensitiveBugReport.addRange (Report : PathSensitiveBugReport) (SR : SourceRange) :
    PathSensitiveBugReport :=
  { Report with Ranges := Report.Ranges ++ [SR] }

/-- The engine as the checker sees it: one field per `CheckerContext` (or
`ProgramState`, `ConstraintManager`) method the checker calls.
`getSVal S E` is `S->getSVal(E, C.getLocationContext())`;
`assumeDual S V` is `C.getConstraintManager().assumeDual(S, V)`, a pair of
possibly-null states. -/
structure CheckerContext where
  getState : ProgramState
  getCalleeDecl : CallExpr → Option FunctionDecl
  getCalleeName : FunctionDecl → String
  isGreaterOrEqual : Expr → Nat → Bool
  isNegative : Expr → Bool
  getSVal : ProgramState → Expr → SVal
  assumeDual : ProgramState → DefinedSVal → Option ProgramState × Option ProgramState
  generateErrorNode : ProgramState → Option ExplodedNode

/-! ## The checker -/

end MathFuncParamChecker

/-- The checker object: its two `mutable std::unique_ptr<BugType>` fields
(`none` is the null pointer) and the number of `BugType` objects allocated so
far, which is the identity the next `new BugType` receives. -/
structure MathFuncParamChecker where
  PowBugtype : Option MathFuncParamChecker.BugType
  SqrtBugType : Option MathFuncParamChecker.BugType
  allocated : Nat
deriving DecidableEq, Repr

namespace MathFuncParamChecker

/-- What one evaluation yields: the checker afterwards and the reports given
to `C.emitReport`, or a fault. -/
abbrev Outcome := Except Fault (MathFuncParamChecker × List PathSensitiveBugReport)

/-- The statement `PowBugtype.reset(new BugType(this, Name, Cat))`. -/
def resetPowBugtype (K : MathFuncParamChecker) (Name Cat : String) : MathFuncParamChecker :=
  { K with PowBugtype := some { id := K.allocated, Description := Name, Category := Cat },
           allocated := K.allocated + 1 }

/-- The statement `SqrtBugType.reset(new BugType(this, Name, Cat))`. -/
def resetSqrtBugType (K : MathFuncParamChecker) (Name Cat : String) : MathFuncParamChecker :=
  { K with SqrtBugType := some { id := K.allocated, Description := Name, Category := Cat },
           allocated := K.allocated + 1 }

/-- The constructor (lines 31-34): both fields are set to fresh objects. -/
def new : MathFuncParamChecker :=
  resetSqrtBugType
    (resetPowBugtype { PowBugtype := none, SqrtBugType := none, allocated := 0 }
      "Domain/Range/Poll pow error" "Math func input args error")
    "Domain/Range/Poll sqrt error" "Math func input args error"

/-- The `ReportBug` method (lines 36-46). `BT` is the `unique_ptr` passed by
reference; the result is the list of reports emitted. -/
def ReportBug (C : CheckerContext) (State : ProgramState) (SR : SourceRange)
    (BT : Option BugType) : Except Fault (List PathSensitiveBugReport) :=
  match C.generateErrorNode State with
  | none => .ok []
  | some N =>
    match BT with
    | none => .error .NullBugType
    | some bt =>
      let Report : PathSensitiveBugReport :=
        { BT := bt, Description := bt.getDescription, ErrorNode := N, Ranges := [] }
      .ok [Report.addRange SR]

/-- The `checkSqrtArgs` method (lines 68-102). -/
def checkSqrtArgs (K : MathFuncParamChecker) (CE : CallExpr) (C : CheckerContext) : Outcome :=
  match CE.getArg 0 with
  | .error f => .error f
  | .ok none => .ok (K, [])
  | .ok (some InputArgX) =>
    let state := C.getState
    let TypeArgX := InputArgX.getType
    if TypeArgX.isArithmeticType && C.isGreaterOrEqual InputArgX 0 then
      .ok (K, [])
    else if TypeArgX.isArithmeticType && C.isNegative InputArgX then
      let K1 := resetSqrtBugType K "Function argument is negative, domain error"
        "Math func input args error"
      (ReportBug C state InputArgX.getSourceRange K1.SqrtBugType).map fun out => (K1, out)
    else
      let ArgXSVal := C.getSVal C.getState InputArgX
      match ArgXSVal.getAsDefinedSVal with
      | none => .ok (K, [])
      | some DV =>
        let (StateTrue, StateFalse) := C.assumeDual C.getState DV
        if StateTrue.isSome && StateFalse.isSome then
          let K1 := resetSqrtBugType K "Undefined function argument, could be negative"
            "Math func input args error"
          (ReportBug C state InputArgX.getSourceRange K1.SqrtBugType).map fun out => (K1, out)
        else
          .ok (K, [])

/-- The `checkPowArgs` method (lines 104-162). -/
def checkPowArgs (K : MathFuncParamChecker) (CE : CallExpr) (C : CheckerContext) : Outcome :=
  match CE.getArg 0 with
  | .error f => .error f
  | .ok none => .ok (K, [])
  | .ok (some InputArgX) =>
    match CE.getArg 1 with
    | .error f => .error f
    | .ok none => .ok (K, [])
    | .ok (some InputArgY) =>
      let state := C.getState
      let TypeArgX := InputArgX.getType
      let TypeArgY := InputArgY.getType
      if !TypeArgX.isArithmeticType || !TypeArgY.isArithmeticType then
        .ok (K, [])
      else if C.isGreaterOrEqual InputArgX 1 then
        .ok (K, [])
      else if C.isNegative InputArgY && !C.isNegative InputArgX
          && !C.isGreaterOrEqual InputArgX 1 then
        let K1 := resetPowBugtype K
          "Pole error: if first argument is 0, second argument must be positive"
          "Math func input args error"
        (ReportBug C state InputArgX.getSourceRange K1.PowBugtype).map fun out => (K1, out)
      else if C.isNegative InputArgX && !TypeArgY.isIntegerType then
        let K1 := resetPowBugtype K
          "Domain error: if first argument is less than 0, second argument must be an integer"
          "Math func input args error"
        (ReportBug C state InputArgX.getSourceRange K1.PowBugtype).map fun out => (K1, out)
      else
        let ArgXSVal := C.getSVal C.getState InputArgX
        match ArgXSVal.getAsDefinedSVal with
        | none => .ok (K, [])
        | some DVX =>
          let (StateTrue, StateFalse) := C.assumeDual C.getState DVX
          if StateTrue.isSome && StateFalse.isSome then
            let K1 := resetPowBugtype K
              "First pow argument is undefined, could cause domain or range error"
              "Math func input args error"
            (ReportBug C state InputArgX.getSourceRange K1.PowBugtype).map fun out => (K1, out)
          else
            let ArgYSVal := C.getSVal C.getState InputArgY
            match ArgYSVal.getAsDefinedSVal with
            | none => .ok (K, [])
            | some DVY =>
              let (StateTrue, StateFalse) := C.assumeDual C.getState DVY
              if StateTrue.isSome && StateFalse.isSome then
                let K1 := resetPowBugtype K
                  "Second pow argument is undefined, could cause domain or range error"
                  "Math func input args error"
                (ReportBug C state InputArgX.getSourceRange K1.PowBugtype).map
                  fun out => (K1, out)
              else
                .ok (K, [])

/-- The `checkPreStmt` callback (lines 47-66). -/
def checkPreStmt (K : MathFuncParamChecker) (CE : CallExpr) (C : CheckerContext) : Outcome :=
  match C.getCalleeDecl CE with
  | none => .ok (K, [])
  | some FD =>
    if FD.getKind != DeclKind.Function then
      .ok (K, [])
    else
      let NamespaceCtx := FD.getEnclosingNamespaceContext
      if (NamespaceCtx.map fun ctx => ctx.isNamespaceDecl) == some true then
        .ok (K, [])
      else
        let FName := C.getCalleeName FD
        if FName.isEmpty then
          .ok (K, [])
        else if FName == "pow" then
          checkPowArgs K CE C
        else if FName == "sqrt" then
          checkSqrtArgs K CE C
        else
          .ok (K, [])

/-! ## Findings -/

/-- The six report sites of the checker, under the names the specification
gives them. -/
inductive ViolationKind where
  | SqrtNegativeArgument
  | SqrtMaybeNegative
  | PowPoleError
  | PowDomainError
  | PowArgXUndefined
  | PowArgYUndefined
deriving DecidableEq, Repr

/-- The description each report site gives its `BugType` (lines 81, 98, 123,
129, 146, 158). -/
def ViolationKind.message : ViolationKind → String
  | .SqrtNegativeArgument => "Function argument is negative, domain error"
  | .SqrtMaybeNegative => "Undefined function argument, could be negative"
  | .PowPoleError => "Pole error: if first argument is 0, second argument must be positive"
  | .PowDomainError =>
    "Domain error: if first argument is less than 0, second argument must be an integer"
  | .PowArgXUndefined => "First pow argument is undefined, could cause domain or range error"
  | .PowArgYUndefined => "Second pow argument is undefined, could cause domain or range error"

/-- Every kind, in the order of the report sites. -/
def ViolationKind.all : List ViolationKind :=
  [.SqrtNegativeArgument, .SqrtMaybeNegative, .PowPoleError, .PowDomainError,
   .PowArgXUndefined, .PowArgYUndefined]

/-- The kind of a report: the report site whose description it carries. -/
def PathSensitiveBugReport.kind (Report : PathSensitiveBugReport) : Option ViolationKind :=
  ViolationKind.all.find? fun k => k.message == Report.Description

/-- A report is a finding of kind `k` anchored at `SR`: it and the bug type it
was built from carry the description of `k`, and `SR` is its only range. -/
def PathSensitiveBugReport.isFinding (Report : PathSensitiveBugReport) (k : ViolationKind)
    (SR : SourceRange) : Prop :=
  Report.kind = some k ∧ Report.Description = k.message ∧
    Report.BT.getDescription = k.message ∧ Report.Ranges = [SR]

instance (Report : PathSensitiveBugReport) (k : ViolationKind) (SR : SourceRange) :
    Decidable (Report.isFinding k SR) := by
  unfold PathSensitiveBugReport.isFinding; infer_instance

/-- The reports of an outcome; a fault emits none. -/
def Outcome.findings : Outcome → List PathSensitiveBugReport
  | .ok (_, out) => out
  | .error _ => []

/-- The number of `BugType` objects an evaluation started from `K` allocated.
Every report site allocates one, immediately before its call of `ReportBug`,
and nothing else in `checkPreStmt` allocates. -/
def Outcome.allocations (K : MathFuncParamChecker) : Outcome → Nat
  | .ok (K1, _) => K1.allocated - K.allocated
  | .error _ => 0

/-! ## A small host, for concrete runs

Each expression node is mapped to what the path is known to say about its
value: nothing (the value is unknown to the engine), or bounds `lo ≤ v ≤ hi`,
either of which may be absent. -/

/-- Known bounds on a value. -/
structure Bounds where
  lo : Option Int
  hi : Option Int
deriving DecidableEq, Repr

/-- The value may be zero. -/
def Bounds.admitsZero (b : Bounds) : Bool :=
  (match b.lo with | some l => decide (l ≤ 0) | none => true) &&
  (match b.hi with | some h => decide (0 ≤ h) | none => true)

/-- The value may be non-zero. -/
def Bounds.admitsNonZero (b : Bounds) : Bool :=
  !(b.lo == some 0 && b.hi == some 0)

/-- A host that resolves every callee to a plain function `callee` at
translation-unit scope, answers comparisons from `known`, binds node `n` to
the symbol `n` when it knows bounds for it, and always has an error node. -/
def boundsHost (callee : String) (known : Nat → Option Bounds) : CheckerContext where
  getState := ⟨0⟩
  getCalleeDecl := fun CE => some ⟨CE.node, .Function, some ⟨false⟩⟩
  getCalleeName := fun _ => callee
  isGreaterOrEqual := fun E n =>
    match known E.node with
    | some ⟨some l, _⟩ => decide ((n : Int) ≤ l)
    | _ => false
  isNegative := fun E =>
    match known E.node with
    | some ⟨_, some h⟩ => decide (h < 0)
    | _ => false
  getSVal := fun _ E =>
    match known E.node with
    | some _ => .Defined ⟨E.node⟩
    | none => .UnknownVal
  assumeDual := fun S V =>
    match known V.sym with
    | some b => (if b.admitsNonZero then some S else none, if b.admitsZero then some S else none)
    | none => (some S, some S)
  generateErrorNode := fun S => some ⟨S.id⟩

/-- The type `int`. -/
def intTy : QualType := ⟨true, true⟩

/-- The type `double`. -/
def doubleTy : QualType := ⟨true, false⟩

/-- A scoped enumeration type (or a pointer type): neither `isArithmeticType`
nor `isIntegerType` holds of it. -/
def scopedEnumTy : QualType := ⟨false, false⟩

/-- A call with node identity 100 whose `i`-th argument is node `i` of type
`tys[i]`, at source range `[10 * i, 10 * i + 5]`. -/
def call (tys : List QualType) : CallExpr :=
  ⟨100, tys.enum.map fun p => some ⟨p.1, p.2, ⟨10 * p.1, 10 * p.1 + 5⟩⟩⟩

end MathFuncParamChecker

namespace MathFuncParamChecker

/-! ## Concrete calls -/

/-- The call `sqrt(-1)`: the argument is known to be exactly `-1`. -/
def sqrtMinusOneHost : CheckerContext :=
  boundsHost "sqrt" fun _ => some ⟨some (-1), some (-1)⟩

/-- The call `sqrt(n)` for an integer parameter `n` with no constraint. -/
def sqrtParamHost : CheckerContext :=
  boundsHost "sqrt" fun _ => some ⟨none, none⟩

/-- The call `sqrt(e)` for `e` of a scoped enumeration type, on a path where
`e >= 0` is known. -/
def sqrtEnumHost : CheckerContext :=
  boundsHost "sqrt" fun _ => some ⟨some 0, none⟩

/-- The call `pow(2, y)`: the base is exactly `2`, nothing is known of `y`. -/
def powTwoHost : CheckerContext :=
  boundsHost "pow" fun n => if n = 0 then some ⟨some 2, some 2⟩ else some ⟨none, none⟩

/-- The call `pow(0, -1)`. -/
def powZeroMinusOneHost : CheckerContext :=
  boundsHost "pow" fun n => if n = 0 then some ⟨some 0, some 0⟩ else some ⟨some (-1), some (-1)⟩

/-- The call `pow(x, 0.5)` on a path where `x <= -1` is known; the engine has
no value for the floating-point literal. -/
def powNegHalfHost : CheckerContext :=
  boundsHost "pow" fun n => if n = 0 then some ⟨none, some (-1)⟩ else none

/-- The report a fresh checker emits for `sqrt(-1)`. -/
def sqrtMinusOneReport : PathSensitiveBugReport :=
  ⟨⟨2, "Function argument is negative, domain error", "Math func input args error"⟩,
    "Function argument is negative, domain error", ⟨0⟩, [⟨0, 5⟩]⟩

/-- The report a fresh checker emits for `pow(0, -1)`. -/
def powZeroMinusOneReport : PathSensitiveBugReport :=
  ⟨⟨2, "Pole error: if first argument is 0, second argument must be positive",
      "Math func input args error"⟩,
    "Pole error: if first argument is 0, second argument must be positive", ⟨0⟩, [⟨0, 5⟩]⟩

/-! ## Classification of an outcome, and a variant of the power rule -/

/-- What a diagnostic shows of a report: its kind, its message and its
ranges. -/
def PathSensitiveBugReport.classification (Report : PathSensitiveBugReport) :
    Option ViolationKind × String × List SourceRange :=
  (Report.kind, Report.Description, Report.Ranges)

/-- The classification outcome of an evaluation: the classification of every
report emitted (none is no-finding), or the fault. -/
def Outcome.classifications (o : Outcome) :
    Except Fault (List (Option ViolationKind × String × List SourceRange)) :=
  o.map fun p => p.2.map PathSensitiveBugReport.classification

/-- The variant of `checkPowArgs` compared with it in the redundancy
property: the pole-error guard is only "`y` provably negative and `x` not
provably negative"; every other line is that of `checkPowArgs`. -/
def checkPowArgsTwoConjunct (K : MathFuncParamChecker) (CE : CallExpr) (C : CheckerContext) :
    Outcome :=
  match CE.getArg 0 with
  | .error f => .error f
  | .ok none => .ok (K, [])
  | .ok (some InputArgX) =>
    match CE.getArg 1 with
    | .error f => .error f
    | .ok none => .ok (K, [])
    | .ok (some InputArgY) =>
      let state := C.getState
      let TypeArgX := InputArgX.getType
      let TypeArgY := InputArgY.getType
      if !TypeArgX.isArithmeticType || !TypeArgY.isArithmeticType then
        .ok (K, [])
      else if C.isGreaterOrEqual InputArgX 1 then
        .ok (K, [])
      else if C.isNegative InputArgY && !C.isNegative InputArgX then
        let K1 := resetPowBugtype K
          "Pole error: if first argument is 0, second argument must be positive"
          "Math func input args error"
        (ReportBug C state InputArgX.getSourceRange K1.PowBugtype).map fun out => (K1, out)
      else if C.isNegative InputArgX && !TypeArgY.isIntegerType then
        let K1 := resetPowBugtype K
          "Domain error: if first argument is less than 0, second argument must be an integer"
          "Math func input args error"
        (ReportBug C state InputArgX.getSourceRange K1.PowBugtype).map fun out => (K1, out)
      else
        let ArgXSVal := C.getSVal C.getState InputArgX
        match ArgXSVal.getAsDefinedSVal with
        | none => .ok (K, [])
        | some DVX =>
          let (StateTrue, StateFalse) := C.assumeDual C.getState DVX
          if StateTrue.isSome && StateFalse.isSome then
            let K1 := resetPowBugtype K
              "First pow argument is undefined, could cause domain or range error"
              "Math func input args error"
            (ReportBug C state InputArgX.getSourceRange K1.PowBugtype).map fun out => (K1, out)
          else
            let ArgYSVal := C.getSVal C.getState InputArgY
            match ArgYSVal.getAsDefinedSVal with
            | none => .ok (K, [])
            | some DVY =>
              let (StateTrue, StateFalse) := C.assumeDual C.getState DVY
              if StateTrue.isSome && StateFalse.isSome then
                let K1 := resetPowBugtype K
                  "Second pow argument is undefined, could cause domain or range error"
                  "Math func input args error"
                (ReportBug C state InputArgX.getSourceRange K1.PowBugtype).map
                  fun out => (K1, out)
              else
                .ok (K, [])

/-! ## More concrete calls -/

/-- The host `C` in a state for which no error node can be produced. -/
def withoutErrorNode (C : CheckerContext) : CheckerContext :=
  { C with generateErrorNode := fun _ => none }

/-- The call `pow(x, y)` for two integer parameters with no constraint. -/
def powParamsHost : CheckerContext :=
  boundsHost "pow" fun _ => some ⟨none, none⟩

/-- The call `pow(0, y)`: the base is exactly `0`, `y` is an integer parameter
with no constraint. -/
def powZeroParamHost : CheckerContext :=
  boundsHost "pow" fun n => if n = 0 then some ⟨some 0, some 0⟩ else some ⟨none, none⟩

/-- The call `sqrt(x)` where the engine has no value for `x`. -/
def sqrtUnknownHost : CheckerContext :=
  boundsHost "sqrt" fun _ => none

/-- The call `pow(x, y)` where the engine has no value for `x` and `y` is a
parameter with no constraint. -/
def powUnknownBaseHost : CheckerContext :=
  boundsHost "pow" fun n => if n = 0 then none else some ⟨none, none⟩

/-- The call `pow(0, y)` where the engine has no value for `y`. -/
def powZeroUnknownHost : CheckerContext :=
  boundsHost "pow" fun n => if n = 0 then some ⟨some 0, some 0⟩ else none

/-- The call `pow(0, 0)`: both values are exactly `0`, so neither split
returns two states. -/
def powZeroZeroHost : CheckerContext :=
  boundsHost "pow" fun _ => some ⟨some 0, some 0⟩

/-- The call `sqrt(e)` for `e` of a scoped enumeration type whose value is
exactly `0`: the split returns one state only. -/
def sqrtEnumZeroHost : CheckerContext :=
  boundsHost "sqrt" fun _ => some ⟨some 0, some 0⟩

/-- The host of `sqrt(-1)` with a callee that does not resolve to a declaration. -/
def unresolvedCalleeHost : CheckerContext :=
  { sqrtMinusOneHost with getCalleeDecl := fun _ => none }

/-- The host of `sqrt(-1)` with a callee that is a member function `sqrt`. -/
def methodCalleeHost : CheckerContext :=
  { sqrtMinusOneHost with getCalleeDecl := fun CE => some ⟨CE.node, .CXXMethod, some ⟨false⟩⟩ }

/-- The host of `sqrt(-1)` with a callee declared in a namespace, as `std::sqrt`. -/
def namespacedCalleeHost : CheckerContext :=
  { sqrtMinusOneHost with getCalleeDecl := fun CE => some ⟨CE.node, .Function, some ⟨true⟩⟩ }

/-- The host of `sqrt(-1)` with the callee named `sqrtf`. -/
def sqrtfHost : CheckerContext :=
  boundsHost "sqrtf" fun _ => some ⟨some (-1), some (-1)⟩

/-- The host of `pow(0, -1)` with the callee named `powf`. -/
def powfHost : CheckerContext :=
  boundsHost "powf" fun n => if n = 0 then some ⟨some 0, some 0⟩ else some ⟨some (-1), some (-1)⟩

/-- The host of `sqrt(-1)` with a callee that has no name. -/
def unnamedCalleeHost : CheckerContext :=
  boundsHost "" fun _ => some ⟨some (-1), some (-1)⟩

/-! ## Lemmas on `ReportBug` -/

theorem ReportBug_of_node (C : CheckerContext) (State : ProgramState) (SR : SourceRange)
    (bt : BugType) (N : ExplodedNode) (hN : C.generateErrorNode State = some N) :
    ReportBug C State SR (some bt) = .ok [⟨bt, bt.Description, N, [SR]⟩] := by
  simp [ReportBug, hN, PathSensitiveBugReport.addRange, BugType.getDescription]

theorem ReportBug_no_node (C : CheckerContext) (State : ProgramState) (SR : SourceRange)
    (BT : Option BugType) (hN : C.generateErrorNode State = none) :
    ReportBug C State SR BT = .ok [] := by
  simp [ReportBug, hN]

theorem ReportBug_length (C : CheckerContext) (State : ProgramState) (SR : SourceRange)
    (BT : Option BugType) :
    (match ReportBug C State SR BT with
      | .ok out => out.length
      | .error _ => 0) ≤ 1 := by
  unfold ReportBug
  cases C.generateErrorNode State <;> cases BT <;> simp

theorem findings_map_ReportBug (C : CheckerContext) (State : ProgramState) (SR : SourceRange)
    (BT : Option BugType) (K1 : MathFuncParamChecker) :
    (Outcome.findings ((ReportBug C State SR BT).map fun out => (K1, out))).length ≤ 1 := by
  unfold ReportBug
  cases C.generateErrorNode State <;> cases BT <;> simp [Outcome.findings, Except.map]

/-! ## The square-root rule -/

/-- C1: a call `sqrt(x)` whose argument has arithmetic type, is provably
negative and not provably non-negative, in a state for which the host
produces an error node, emits exactly one report; it is the
`SqrtNegativeArgument` finding, with the message "Function argument is
negative, domain error", its only range is the range of `x`, and it is attached
to the host's error node. -/
theorem checkSqrtArgs_negative_reports (K : MathFuncParamChecker) (CE : CallExpr)
    (C : CheckerContext) (x : Expr) (N : ExplodedNode)
    (hx : CE.getArg 0 = .ok (some x))
    (hty : x.getType.isArithmeticType = true)
    (hneg : C.isNegative x = true)
    (hge : C.isGreaterOrEqual x 0 = false)
    (hN : C.generateErrorNode C.getState = some N) :
    ∃ K1 r, checkSqrtArgs K CE C = .ok (K1, [r]) ∧
      r.isFinding .SqrtNegativeArgument x.getSourceRange ∧
      r.Description = "Function argument is negative, domain error" ∧
      r.ErrorNode = N := by
  refine ⟨resetSqrtBugType K "Function argument is negative, domain error"
      "Math func input args error",
    ⟨⟨K.allocated, "Function argument is negative, domain error",
      "Math func input args error"⟩, "Function argument is negative, domain error", N,
      [x.getSourceRange]⟩, ?_, ⟨rfl, rfl, rfl, rfl⟩, rfl, rfl⟩
  simp [checkSqrtArgs, hx, hty, hneg, hge, resetSqrtBugType, ReportBug_of_node _ _ _ _ N hN,
    Except.map]

/-- The instance `sqrt(-1)` of C1. -/
theorem checkSqrtArgs_negative_reports_witness :
    (call [intTy]).getArg 0 = .ok (some ⟨0, intTy, ⟨0, 5⟩⟩) ∧
    intTy.isArithmeticType = true ∧
    sqrtMinusOneHost.isNegative ⟨0, intTy, ⟨0, 5⟩⟩ = true ∧
    sqrtMinusOneHost.isGreaterOrEqual ⟨0, intTy, ⟨0, 5⟩⟩ 0 = false ∧
    sqrtMinusOneHost.generateErrorNode sqrtMinusOneHost.getState = some ⟨0⟩ ∧
    ∃ K1 r, checkSqrtArgs new (call [intTy]) sqrtMinusOneHost = .ok (K1, [r]) ∧
      r.isFinding .SqrtNegativeArgument ⟨0, 5⟩ ∧
      r.Description = "Function argument is negative, domain error" ∧
      r.ErrorNode = ⟨0⟩ :=
  ⟨rfl, rfl, rfl, rfl, rfl,
    checkSqrtArgs_negative_reports new (call [intTy]) sqrtMinusOneHost ⟨0, intTy, ⟨0, 5⟩⟩ ⟨0⟩
      rfl rfl rfl rfl rfl⟩

theorem checkSqrtArgs_arithmetic_nonneg_silent (K : MathFuncParamChecker) (CE : CallExpr)
    (C : CheckerContext) (x : Expr)
    (hx : CE.getArg 0 = .ok (some x))
    (hty : x.getType.isArithmeticType = true)
    (hge : C.isGreaterOrEqual x 0 = true) :
    checkSqrtArgs K CE C = .ok (K, []) := by
  simp [checkSqrtArgs, hx, hty, hge]

/-- C2, evaluated at `sqrt(e)` with `e` of a scoped enumeration type on a
path where `e >= 0` is proved: the argument is provably non-negative, yet one
report is emitted, the `SqrtMaybeNegative` finding.  The guard of the safe
rule tests the type first, so the evaluation falls through to the split. -/
theorem checkSqrtArgs_nonneg_enum_reports :
    (call [scopedEnumTy]).getArg 0 = .ok (some ⟨0, scopedEnumTy, ⟨0, 5⟩⟩) ∧
    sqrtEnumHost.isGreaterOrEqual ⟨0, scopedEnumTy, ⟨0, 5⟩⟩ 0 = true ∧
    sqrtEnumHost.isNegative ⟨0, scopedEnumTy, ⟨0, 5⟩⟩ = false ∧
    ∃ r, (checkSqrtArgs new (call [scopedEnumTy]) sqrtEnumHost).findings = [r] ∧
      r.isFinding .SqrtMaybeNegative ⟨0, 5⟩ := by
  refine ⟨rfl, rfl, rfl, _, rfl, ?_⟩
  decide

/-- C3: a call `sqrt(x)` whose argument has arithmetic type, is neither
provably non-negative nor provably negative, has a defined symbolic value, and
whose dual-assumption split returns two states, in a state for which the host
produces an error node, emits exactly one report; it is the
`SqrtMaybeNegative` finding, with the message "Undefined function argument,
could be negative", and its only range is the range of `x`. -/
theorem checkSqrtArgs_ambiguous_reports (K : MathFuncParamChecker) (CE : CallExpr)
    (C : CheckerContext) (x : Expr) (DV : DefinedSVal) (N : ExplodedNode)
    (hx : CE.getArg 0 = .ok (some x))
    (hty : x.getType.isArithmeticType = true)
    (hge : C.isGreaterOrEqual x 0 = false)
    (hneg : C.isNegative x = false)
    (hdef : (C.getSVal C.getState x).getAsDefinedSVal = some DV)
    (htrue : (C.assumeDual C.getState DV).1.isSome = true)
    (hfalse : (C.assumeDual C.getState DV).2.isSome = true)
    (hN : C.generateErrorNode C.getState = some N) :
    ∃ K1 r, checkSqrtArgs K CE C = .ok (K1, [r]) ∧
      r.isFinding .SqrtMaybeNegative x.getSourceRange ∧
      r.Description = "Undefined function argument, could be negative" ∧
      r.ErrorNode = N := by
  refine ⟨resetSqrtBugType K "Undefined function argument, could be negative"
      "Math func input args error",
    ⟨⟨K.allocated, "Undefined function argument, could be negative",
      "Math func input args error"⟩, "Undefined function argument, could be negative", N,
      [x.getSourceRange]⟩, ?_, ⟨rfl, rfl, rfl, rfl⟩, rfl, rfl⟩
  simp [checkSqrtArgs, hx, hty, hneg, hge, hdef, htrue, hfalse, resetSqrtBugType,
    ReportBug_of_node _ _ _ _ N hN, Except.map]

/-- The instance `sqrt(n)`, `n` an unconstrained integer parameter, of C3. -/
theorem checkSqrtArgs_ambiguous_reports_witness :
    (call [intTy]).getArg 0 = .ok (some ⟨0, intTy, ⟨0, 5⟩⟩) ∧
    intTy.isArithmeticType = true ∧
    sqrtParamHost.isGreaterOrEqual ⟨0, intTy, ⟨0, 5⟩⟩ 0 = false ∧
    sqrtParamHost.isNegative ⟨0, intTy, ⟨0, 5⟩⟩ = false ∧
    (sqrtParamHost.getSVal sqrtParamHost.getState ⟨0, intTy, ⟨0, 5⟩⟩).getAsDefinedSVal
      = some ⟨0⟩ ∧
    (sqrtParamHost.assumeDual sqrtParamHost.getState ⟨0⟩).1.isSome = true ∧
    (sqrtParamHost.assumeDual sqrtParamHost.getState ⟨0⟩).2.isSome = true ∧
    sqrtParamHost.generateErrorNode sqrtParamHost.getState = some ⟨0⟩ ∧
    ∃ K1 r, checkSqrtArgs new (call [intTy]) sqrtParamHost = .ok (K1, [r]) ∧
      r.isFinding .SqrtMaybeNegative ⟨0, 5⟩ ∧
      r.Description = "Undefined function argument, could be negative" ∧
      r.ErrorNode = ⟨0⟩ :=
  ⟨rfl, rfl, rfl, rfl, rfl, rfl, rfl, rfl,
    checkSqrtArgs_ambiguous_reports new (call [intTy]) sqrtParamHost ⟨0, intTy, ⟨0, 5⟩⟩ ⟨0⟩ ⟨0⟩
      rfl rfl rfl rfl rfl rfl rfl rfl⟩

/-- C4, evaluated at `sqrt(p)` with `p` of a type that is not arithmetic and
whose value is defined and unconstrained: one report is emitted, the
`SqrtMaybeNegative` finding.  Both guarded rules are skipped and the
dual-assumption split is reached without a test of the type. -/
theorem checkSqrtArgs_nonarithmetic_reports :
    (call [scopedEnumTy]).getArg 0 = .ok (some ⟨0, scopedEnumTy, ⟨0, 5⟩⟩) ∧
    scopedEnumTy.isArithmeticType = false ∧
    ∃ r, (checkSqrtArgs new (call [scopedEnumTy]) sqrtParamHost).findings = [r] ∧
      r.isFinding .SqrtMaybeNegative ⟨0, 5⟩ := by
  refine ⟨rfl, rfl, _, rfl, ?_⟩
  decide

/-! ## The power rule -/

/-- C5: a call `pow(x, y)` with both arguments of arithmetic type and `x`
provably at least `1` emits no report and leaves the checker as it was,
whatever the host answers about `y` and whatever the type of `y`. -/
theorem checkPowArgs_base_ge_one_silent (K : MathFuncParamChecker) (CE : CallExpr)
    (C : CheckerContext) (x y : Expr)
    (hx : CE.getArg 0 = .ok (some x))
    (hy : CE.getArg 1 = .ok (some y))
    (htx : x.getType.isArithmeticType = true)
    (hty : y.getType.isArithmeticType = true)
    (hge : C.isGreaterOrEqual x 1 = true) :
    checkPowArgs K CE C = .ok (K, []) := by
  simp [checkPowArgs, hx, hy, htx, hty, hge]

/-- The instance `pow(2, y)` of C5, `y` an unconstrained `double`. -/
theorem checkPowArgs_base_ge_one_silent_witness :
    (call [intTy, doubleTy]).getArg 0 = .ok (some ⟨0, intTy, ⟨0, 5⟩⟩) ∧
    (call [intTy, doubleTy]).getArg 1 = .ok (some ⟨1, doubleTy, ⟨10, 15⟩⟩) ∧
    intTy.isArithmeticType = true ∧
    doubleTy.isArithmeticType = true ∧
    powTwoHost.isGreaterOrEqual ⟨0, intTy, ⟨0, 5⟩⟩ 1 = true ∧
    checkPowArgs new (call [intTy, doubleTy]) powTwoHost = .ok (new, []) :=
  ⟨rfl, rfl, rfl, rfl, rfl,
    checkPowArgs_base_ge_one_silent new (call [intTy, doubleTy]) powTwoHost
      ⟨0, intTy, ⟨0, 5⟩⟩ ⟨1, doubleTy, ⟨10, 15⟩⟩ rfl rfl rfl rfl rfl⟩

/-- C6: a call `pow(x, y)` with both arguments of arithmetic type, `x`
neither provably at least `1` nor provably negative, and `y` provably
negative, in a state for which the host produces an error node, emits exactly
one report; it is the `PowPoleError` finding and its only range is the range
of `x`.  Neither the type of `y` nor any split is consulted. -/
theorem checkPowArgs_pole_reports (K : MathFuncParamChecker) (CE : CallExpr)
    (C : CheckerContext) (x y : Expr) (N : ExplodedNode)
    (hx : CE.getArg 0 = .ok (some x))
    (hy : CE.getArg 1 = .ok (some y))
    (htx : x.getType.isArithmeticType = true)
    (hty : y.getType.isArithmeticType = true)
    (hge : C.isGreaterOrEqual x 1 = false)
    (hnegx : C.isNegative x = false)
    (hnegy : C.isNegative y = true)
    (hN : C.generateErrorNode C.getState = some N) :
    ∃ K1 r, checkPowArgs K CE C = .ok (K1, [r]) ∧
      r.isFinding .PowPoleError x.getSourceRange ∧ r.ErrorNode = N := by
  refine ⟨resetPowBugtype K
      "Pole error: if first argument is 0, second argument must be positive"
      "Math func input args error",
    ⟨⟨K.allocated, "Pole error: if first argument is 0, second argument must be positive",
      "Math func input args error"⟩,
      "Pole error: if first argument is 0, second argument must be positive", N,
      [x.getSourceRange]⟩, ?_, ⟨rfl, rfl, rfl, rfl⟩, rfl⟩
  simp [checkPowArgs, hx, hy, htx, hty, hge, hnegx, hnegy, resetPowBugtype,
    ReportBug_of_node _ _ _ _ N hN, Except.map]

/-- The instance `pow(0, -1)` of C6. -/
theorem checkPowArgs_pole_reports_witness :
    (call [intTy, intTy]).getArg 0 = .ok (some ⟨0, intTy, ⟨0, 5⟩⟩) ∧
    (call [intTy, intTy]).getArg 1 = .ok (some ⟨1, intTy, ⟨10, 15⟩⟩) ∧
    intTy.isArithmeticType = true ∧
    powZeroMinusOneHost.isGreaterOrEqual ⟨0, intTy, ⟨0, 5⟩⟩ 1 = false ∧
    powZeroMinusOneHost.isNegative ⟨0, intTy, ⟨0, 5⟩⟩ = false ∧
    powZeroMinusOneHost.isNegative ⟨1, intTy, ⟨10, 15⟩⟩ = true ∧
    powZeroMinusOneHost.generateErrorNode powZeroMinusOneHost.getState = some ⟨0⟩ ∧
    ∃ K1 r, checkPowArgs new (call [intTy, intTy]) powZeroMinusOneHost = .ok (K1, [r]) ∧
      r.isFinding .PowPoleError ⟨0, 5⟩ ∧ r.ErrorNode = ⟨0⟩ :=
  ⟨rfl, rfl, rfl, rfl, rfl, rfl, rfl,
    checkPowArgs_pole_reports new (call [intTy, intTy]) powZeroMinusOneHost
      ⟨0, intTy, ⟨0, 5⟩⟩ ⟨1, intTy, ⟨10, 15⟩⟩ ⟨0⟩ rfl rfl rfl rfl rfl rfl rfl rfl⟩

/-- C7: a call `pow(x, y)` with both arguments of arithmetic type, `x`
provably negative and not provably at least `1`, and `y` of a type that is not
an integer type, in a state for which the host produces an error node, emits
exactly one report; it is the `PowDomainError` finding and its only range is
the range of `x`.  The host's answers about the value of `y` (negativity,
whether it is defined, split) are unconstrained: the outcome is the same for
all of them. -/
theorem checkPowArgs_domain_reports (K : MathFuncParamChecker) (CE : CallExpr)
    (C : CheckerContext) (x y : Expr) (N : ExplodedNode)
    (hx : CE.getArg 0 = .ok (some x))
    (hy : CE.getArg 1 = .ok (some y))
    (htx : x.getType.isArithmeticType = true)
    (hty : y.getType.isArithmeticType = true)
    (hnegx : C.isNegative x = true)
    (hge : C.isGreaterOrEqual x 1 = false)
    (hint : y.getType.isIntegerType = false)
    (hN : C.generateErrorNode C.getState = some N) :
    ∃ K1 r, checkPowArgs K CE C = .ok (K1, [r]) ∧
      r.isFinding .PowDomainError x.getSourceRange ∧ r.ErrorNode = N := by
  refine ⟨resetPowBugtype K
      "Domain error: if first argument is less than 0, second argument must be an integer"
      "Math func input args error",
    ⟨⟨K.allocated,
      "Domain error: if first argument is less than 0, second argument must be an integer",
      "Math func input args error"⟩,
      "Domain error: if first argument is less than 0, second argument must be an integer", N,
      [x.getSourceRange]⟩, ?_, ⟨rfl, rfl, rfl, rfl⟩, rfl⟩
  simp [checkPowArgs, hx, hy, htx, hty, hge, hnegx, hint, resetPowBugtype,
    ReportBug_of_node _ _ _ _ N hN, Except.map]

/-- The instance `pow(x, 0.5)`, `x` provably negative, of C7. -/
theorem checkPowArgs_domain_reports_witness :
    (call [intTy, doubleTy]).getArg 0 = .ok (some ⟨0, intTy, ⟨0, 5⟩⟩) ∧
    (call [intTy, doubleTy]).getArg 1 = .ok (some ⟨1, doubleTy, ⟨10, 15⟩⟩) ∧
    intTy.isArithmeticType = true ∧
    doubleTy.isArithmeticType = true ∧
    powNegHalfHost.isNegative ⟨0, intTy, ⟨0, 5⟩⟩ = true ∧
    powNegHalfHost.isGreaterOrEqual ⟨0, intTy, ⟨0, 5⟩⟩ 1 = false ∧
    doubleTy.isIntegerType = false ∧
    powNegHalfHost.generateErrorNode powNegHalfHost.getState = some ⟨0⟩ ∧
    ∃ K1 r, checkPowArgs new (call [intTy, doubleTy]) powNegHalfHost = .ok (K1, [r]) ∧
      r.isFinding .PowDomainError ⟨0, 5⟩ ∧ r.ErrorNode = ⟨0⟩ :=
  ⟨rfl, rfl, rfl, rfl, rfl, rfl, rfl, rfl,
    checkPowArgs_domain_reports new (call [intTy, doubleTy]) powNegHalfHost
      ⟨0, intTy, ⟨0, 5⟩⟩ ⟨1, doubleTy, ⟨10, 15⟩⟩ ⟨0⟩ rfl rfl rfl rfl rfl rfl rfl rfl⟩

/-- C8: a call `pow(x, y)` in which `x` or `y` does not have arithmetic type
emits no report and leaves the checker as it was, and it does so under any
two hosts alike: no answer to a comparison, value or split query has any
influence on the outcome. -/
theorem checkPowArgs_nonarithmetic_silent (K : MathFuncParamChecker) (CE : CallExpr)
    (C C2 : CheckerContext) (x y : Expr)
    (hx : CE.getArg 0 = .ok (some x))
    (hy : CE.getArg 1 = .ok (some y))
    (hty : x.getType.isArithmeticType = false ∨ y.getType.isArithmeticType = false) :
    checkPowArgs K CE C = .ok (K, []) ∧ checkPowArgs K CE C2 = checkPowArgs K CE C := by
  rcases hty with h | h <;> simp [checkPowArgs, hx, hy, h]

/-- An instance of C8: `pow(0, e)` with `e` of a scoped enumeration type,
under a host that proves `e < 0` and under one that knows nothing of `e`. -/
theorem checkPowArgs_nonarithmetic_silent_witness :
    (call [intTy, scopedEnumTy]).getArg 0 = .ok (some ⟨0, intTy, ⟨0, 5⟩⟩) ∧
    (call [intTy, scopedEnumTy]).getArg 1 = .ok (some ⟨1, scopedEnumTy, ⟨10, 15⟩⟩) ∧
    (intTy.isArithmeticType = false ∨ scopedEnumTy.isArithmeticType = false) ∧
    checkPowArgs new (call [intTy, scopedEnumTy]) powZeroMinusOneHost = .ok (new, []) ∧
    checkPowArgs new (call [intTy, scopedEnumTy]) powTwoHost
      = checkPowArgs new (call [intTy, scopedEnumTy]) powZeroMinusOneHost :=
  ⟨rfl, rfl, Or.inr rfl,
    checkPowArgs_nonarithmetic_silent new (call [intTy, scopedEnumTy])
      powZeroMinusOneHost powTwoHost
      ⟨0, intTy, ⟨0, 5⟩⟩ ⟨1, scopedEnumTy, ⟨10, 15⟩⟩ rfl rfl (Or.inr rfl)⟩

/-! ## At most one finding -/

theorem checkSqrtArgs_findings_length (K : MathFuncParamChecker) (CE : CallExpr)
    (C : CheckerContext) : (checkSqrtArgs K CE C).findings.length ≤ 1 := by
  unfold checkSqrtArgs
  repeat' first
    | exact findings_map_ReportBug _ _ _ _ _
    | exact Nat.zero_le 1
    | split
    | dsimp only

theorem checkPowArgs_findings_length (K : MathFuncParamChecker) (CE : CallExpr)
    (C : CheckerContext) : (checkPowArgs K CE C).findings.length ≤ 1 := by
  unfold checkPowArgs
  repeat' first
    | exact findings_map_ReportBug _ _ _ _ _
    | exact Nat.zero_le 1
    | split
    | dsimp only

theorem allocations_map_ReportBug (C : CheckerContext) (State : ProgramState)
    (SR : SourceRange) (BT : Option BugType) (K K1 : MathFuncParamChecker)
    (h : K1.allocated = K.allocated + 1) :
    Outcome.allocations K ((ReportBug C State SR BT).map fun out => (K1, out)) ≤ 1 := by
  unfold ReportBug
  cases C.generateErrorNode State <;> cases BT <;> simp [Outcome.allocations, Except.map, h]

theorem checkSqrtArgs_allocations (K : MathFuncParamChecker) (CE : CallExpr)
    (C : CheckerContext) : (checkSqrtArgs K CE C).allocations K ≤ 1 := by
  unfold checkSqrtArgs
  repeat' first
    | exact allocations_map_ReportBug _ _ _ _ _ _ rfl
    | exact Nat.zero_le 1
    | exact (Nat.sub_self K.allocated).le.trans (Nat.zero_le 1)
    | split
    | dsimp only

theorem checkPowArgs_allocations (K : MathFuncParamChecker) (CE : CallExpr)
    (C : CheckerContext) : (checkPowArgs K CE C).allocations K ≤ 1 := by
  unfold checkPowArgs
  repeat' first
    | exact allocations_map_ReportBug _ _ _ _ _ _ rfl
    | exact Nat.zero_le 1
    | exact (Nat.sub_self K.allocated).le.trans (Nat.zero_le 1)
    | split
    | dsimp only

/-- C9: one invocation of `checkPreStmt`, on any call expression, checker and
host, emits at most one report and enters at most one report site (it
allocates at most one bug type); `checkSqrtArgs` and `checkPowArgs` on their
own emit at most one report each, and a single call of `ReportBug` emits at
most one report. -/
theorem checkPreStmt_at_most_one_finding (K : MathFuncParamChecker) (CE : CallExpr)
    (C : CheckerContext) (State : ProgramState) (SR : SourceRange) (BT : Option BugType) :
    (checkPreStmt K CE C).findings.length ≤ 1 ∧
    (checkPreStmt K CE C).allocations K ≤ 1 ∧
    (checkSqrtArgs K CE C).findings.length ≤ 1 ∧
    (checkPowArgs K CE C).findings.length ≤ 1 ∧
    (match ReportBug C State SR BT with
      | .ok out => out.length
      | .error _ => 0) ≤ 1 := by
  refine ⟨?_, ?_, checkSqrtArgs_findings_length K CE C, checkPowArgs_findings_length K CE C,
    ReportBug_length C State SR BT⟩
  · unfold checkPreStmt
    repeat' first
      | exact checkSqrtArgs_findings_length K CE C
      | exact checkPowArgs_findings_length K CE C
      | exact Nat.zero_le 1
      | split
      | dsimp only
  · unfold checkPreStmt
    repeat' first
      | exact checkSqrtArgs_allocations K CE C
      | exact checkPowArgs_allocations K CE C
      | exact Nat.zero_le 1
      | exact (Nat.sub_self K.allocated).le.trans (Nat.zero_le 1)
      | split
      | dsimp only

/-! ## Definite findings rest on a proof -/

theorem kind_of_description (r : PathSensitiveBugReport) (k : ViolationKind)
    (h : r.Description = k.message) : r.kind = some k := by
  unfold PathSensitiveBugReport.kind
  rw [h]
  cases k <;> decide

theorem mem_findings_map_ReportBug (C : CheckerContext) (State : ProgramState)
    (SR : SourceRange) (bt : BugType) (K1 : MathFuncParamChecker) (r : PathSensitiveBugReport)
    (h : r ∈ Outcome.findings ((ReportBug C State SR (some bt)).map fun out => (K1, out))) :
    r.Description = bt.Description ∧ r.BT = bt ∧ r.Ranges = [SR] := by
  unfold ReportBug at h
  cases hN : C.generateErrorNode State with
  | none => simp [hN, Outcome.findings, Except.map] at h
  | some N =>
    simp [hN, Outcome.findings, Except.map, PathSensitiveBugReport.addRange,
      BugType.getDescription] at h
    subst h
    exact ⟨rfl, rfl, rfl⟩

theorem sqrt_finding_sound (K : MathFuncParamChecker) (CE : CallExpr) (C : CheckerContext)
    (r : PathSensitiveBugReport) (h : r ∈ (checkSqrtArgs K CE C).findings) :
    ∃ x, CE.getArg 0 = .ok (some x) ∧
      ((r.kind = some .SqrtNegativeArgument ∧ C.isNegative x = true) ∨
        r.kind = some .SqrtMaybeNegative) := by
  unfold checkSqrtArgs at h
  split at h
  · simp [Outcome.findings] at h
  · simp [Outcome.findings] at h
  · rename_i x hx
    refine ⟨x, hx, ?_⟩
    dsimp only at h
    split at h
    · simp [Outcome.findings] at h
    · split at h
      · rename_i hneg
        have hr := mem_findings_map_ReportBug _ _ _ _ _ _ h
        simp only [Bool.and_eq_true] at hneg
        exact Or.inl ⟨kind_of_description r .SqrtNegativeArgument hr.1, hneg.2⟩
      · split at h
        · simp [Outcome.findings] at h
        · split at h
          · have hr := mem_findings_map_ReportBug _ _ _ _ _ _ h
            exact Or.inr (kind_of_description r .SqrtMaybeNegative hr.1)
          · simp [Outcome.findings] at h

theorem pow_finding_sound (K : MathFuncParamChecker) (CE : CallExpr) (C : CheckerContext)
    (r : PathSensitiveBugReport) (h : r ∈ (checkPowArgs K CE C).findings) :
    ∃ x y, CE.getArg 0 = .ok (some x) ∧ CE.getArg 1 = .ok (some y) ∧
      ((r.kind = some .PowPoleError ∧ C.isNegative y = true ∧ C.isNegative x = false ∧
          C.isGreaterOrEqual x 1 = false) ∨
        (r.kind = some .PowDomainError ∧ C.isNegative x = true ∧
          y.getType.isIntegerType = false) ∨
        r.kind = some .PowArgXUndefined ∨ r.kind = some .PowArgYUndefined) := by
  unfold checkPowArgs at h
  split at h
  · simp [Outcome.findings] at h
  · simp [Outcome.findings] at h
  · rename_i x hx
    split at h
    · simp [Outcome.findings] at h
    · simp [Outcome.findings] at h
    · rename_i y hy
      refine ⟨x, y, hx, hy, ?_⟩
      dsimp only at h
      split at h
      · simp [Outcome.findings] at h
      · split at h
        · simp [Outcome.findings] at h
        · split at h
          · rename_i hpole
            have hr := mem_findings_map_ReportBug _ _ _ _ _ _ h
            simp only [Bool.and_eq_true, Bool.not_eq_true'] at hpole
            exact Or.inl ⟨kind_of_description r .PowPoleError hr.1, hpole.1.1, hpole.1.2,
              hpole.2⟩
          · split at h
            · rename_i hdom
              have hr := mem_findings_map_ReportBug _ _ _ _ _ _ h
              simp only [Bool.and_eq_true, Bool.not_eq_true'] at hdom
              exact Or.inr (Or.inl ⟨kind_of_description r .PowDomainError hr.1, hdom.1,
                hdom.2⟩)
            · split at h
              · simp [Outcome.findings] at h
              · split at h
                · have hr := mem_findings_map_ReportBug _ _ _ _ _ _ h
                  exact Or.inr (Or.inr (Or.inl
                    (kind_of_description r .PowArgXUndefined hr.1)))
                · split at h
                  · simp [Outcome.findings] at h
                  · split at h
                    · have hr := mem_findings_map_ReportBug _ _ _ _ _ _ h
                      exact Or.inr (Or.inr (Or.inr
                        (kind_of_description r .PowArgYUndefined hr.1)))
                    · simp [Outcome.findings] at h

/-- C10: a definite finding is emitted only on a proof.  Every report of
`checkSqrtArgs` is either `SqrtNegativeArgument`, and then the host proved
`x < 0`, or `SqrtMaybeNegative`.  Every report of `checkPowArgs` is either
`PowPoleError`, and then the host proved `y < 0` and proved neither `x < 0` nor
`x >= 1`; or `PowDomainError`, and then the host proved `x < 0` and the type of
`y` is not an integer type; or one of `PowArgXUndefined`, `PowArgYUndefined`.
The kind of a report is a function of the report, so the cases exclude one
another. -/
theorem definite_finding_is_proved (K : MathFuncParamChecker) (CE : CallExpr)
    (C : CheckerContext) (r : PathSensitiveBugReport) :
    (r ∈ (checkSqrtArgs K CE C).findings →
      ∃ x, CE.getArg 0 = .ok (some x) ∧
        ((r.kind = some .SqrtNegativeArgument ∧ C.isNegative x = true) ∨
          r.kind = some .SqrtMaybeNegative)) ∧
    (r ∈ (checkPowArgs K CE C).findings →
      ∃ x y, CE.getArg 0 = .ok (some x) ∧ CE.getArg 1 = .ok (some y) ∧
        ((r.kind = some .PowPoleError ∧ C.isNegative y = true ∧ C.isNegative x = false ∧
            C.isGreaterOrEqual x 1 = false) ∨
          (r.kind = some .PowDomainError ∧ C.isNegative x = true ∧
            y.getType.isIntegerType = false) ∨
          r.kind = some .PowArgXUndefined ∨ r.kind = some .PowArgYUndefined)) :=
  ⟨sqrt_finding_sound K CE C r, pow_finding_sound K CE C r⟩

/-- Instances of C10: the report of `sqrt(-1)` and the report of `pow(0, -1)`,
each emitted by a fresh checker. -/
theorem definite_finding_is_proved_witness :
    (sqrtMinusOneReport ∈ (checkSqrtArgs new (call [intTy]) sqrtMinusOneHost).findings ∧
      ∃ x, (call [intTy]).getArg 0 = .ok (some x) ∧
        ((sqrtMinusOneReport.kind = some .SqrtNegativeArgument ∧
            sqrtMinusOneHost.isNegative x = true) ∨
          sqrtMinusOneReport.kind = some .SqrtMaybeNegative)) ∧
    (powZeroMinusOneReport
        ∈ (checkPowArgs new (call [intTy, intTy]) powZeroMinusOneHost).findings ∧
      ∃ x y, (call [intTy, intTy]).getArg 0 = .ok (some x) ∧
        (call [intTy, intTy]).getArg 1 = .ok (some y) ∧
        ((powZeroMinusOneReport.kind = some .PowPoleError ∧
            powZeroMinusOneHost.isNegative y = true ∧
            powZeroMinusOneHost.isNegative x = false ∧
            powZeroMinusOneHost.isGreaterOrEqual x 1 = false) ∨
          (powZeroMinusOneReport.kind = some .PowDomainError ∧
            powZeroMinusOneHost.isNegative x = true ∧ y.getType.isIntegerType = false) ∨
          powZeroMinusOneReport.kind = some .PowArgXUndefined ∨
          powZeroMinusOneReport.kind = some .PowArgYUndefined)) :=
  ⟨⟨by decide,
      (definite_finding_is_proved new (call [intTy]) sqrtMinusOneHost sqrtMinusOneReport).1
        (by decide)⟩,
    ⟨by decide,
      (definite_finding_is_proved new (call [intTy, intTy]) powZeroMinusOneHost
        powZeroMinusOneReport).2 (by decide)⟩⟩

/-! ## The outcome does not depend on the checker's fields -/

theorem classifications_map_ReportBug (C : CheckerContext) (State : ProgramState)
    (SR : SourceRange) (i j : Nat) (d c : String) (K1 K2 : MathFuncParamChecker) :
    Outcome.classifications ((ReportBug C State SR (some ⟨i, d, c⟩)).map fun out => (K1, out))
      = Outcome.classifications
          ((ReportBug C State SR (some ⟨j, d, c⟩)).map fun out => (K2, out)) := by
  unfold ReportBug
  cases C.generateErrorNode State <;>
    simp [Outcome.classifications, Except.map, PathSensitiveBugReport.classification,
      PathSensitiveBugReport.kind, PathSensitiveBugReport.addRange, BugType.getDescription]

theorem checkSqrtArgs_classifications (K K2 : MathFuncParamChecker) (CE : CallExpr)
    (C : CheckerContext) :
    (checkSqrtArgs K CE C).classifications = (checkSqrtArgs K2 CE C).classifications := by
  unfold checkSqrtArgs
  rcases CE.getArg 0 with f | (_ | x)
  · rfl
  · rfl
  · dsimp only
    repeat' first
      | rfl
      | exact classifications_map_ReportBug _ _ _ _ _ _ _ _ _
      | split

theorem checkPowArgs_classifications (K K2 : MathFuncParamChecker) (CE : CallExpr)
    (C : CheckerContext) :
    (checkPowArgs K CE C).classifications = (checkPowArgs K2 CE C).classifications := by
  unfold checkPowArgs
  rcases CE.getArg 0 with f | (_ | x)
  · rfl
  · rfl
  · rcases CE.getArg 1 with f | (_ | y)
    · rfl
    · rfl
    · dsimp only
      repeat' first
        | rfl
        | exact classifications_map_ReportBug _ _ _ _ _ _ _ _ _
        | split

/-- C11: the classification outcome of `checkPreStmt` (for each report its
kind, message and source ranges; no report is no-finding; or the fault) is
the same for any two checkers `K` and `K2`, whatever their `PowBugtype` and
`SqrtBugType` fields hold (null included) and however many bug types they have
allocated, on the same call expression and the same host. -/
theorem checkPreStmt_classification_independent_of_fields (K K2 : MathFuncParamChecker)
    (CE : CallExpr) (C : CheckerContext) :
    (checkPreStmt K CE C).classifications = (checkPreStmt K2 CE C).classifications := by
  unfold checkPreStmt
  repeat' first
    | rfl
    | exact checkPowArgs_classifications K K2 CE C
    | exact checkSqrtArgs_classifications K K2 CE C
    | split
    | dsimp only

/-! ## The bug-type fields are replaced on every report path -/

/-- C12, evaluated at `sqrt(-1)` on a freshly constructed checker, twice in a
row: after the first evaluation `SqrtBugType` no longer holds the object the
constructor created, and the two reports, both `SqrtNegativeArgument`, carry
bug types of different identity. -/
theorem checkPreStmt_replaces_SqrtBugType :
    ∃ K1 r1 K2 r2,
      checkPreStmt new (call [intTy]) sqrtMinusOneHost = .ok (K1, [r1]) ∧
      checkPreStmt K1 (call [intTy]) sqrtMinusOneHost = .ok (K2, [r2]) ∧
      new.SqrtBugType = some ⟨1, "Domain/Range/Poll sqrt error", "Math func input args error"⟩ ∧
      K1.SqrtBugType ≠ new.SqrtBugType ∧
      K2.SqrtBugType ≠ K1.SqrtBugType ∧
      r1.kind = some .SqrtNegativeArgument ∧
      r2.kind = some .SqrtNegativeArgument ∧
      r1.BT.id = 2 ∧ r2.BT.id = 3 := by
  refine ⟨_, _, _, _, rfl, rfl, rfl, ?_, ?_, rfl, rfl, rfl, rfl⟩ <;> decide

/-! ## Routing -/

/-- C13: `checkPreStmt` only routes.  It returns the checker unchanged with no
report when the callee does not resolve to a declaration, when the declaration
is not a plain function, when its enclosing namespace context is a namespace
declaration, when its name is empty, and when its name is neither `pow` nor
`sqrt`.  For a plain function outside every namespace its outcome is that of
`checkPowArgs` when the name is `pow` and that of `checkSqrtArgs` when the
name is `sqrt`. -/
theorem checkPreStmt_routes (K : MathFuncParamChecker) (CE : CallExpr) (C : CheckerContext) :
    (C.getCalleeDecl CE = none → checkPreStmt K CE C = .ok (K, [])) ∧
    (∀ FD, C.getCalleeDecl CE = some FD → FD.getKind ≠ DeclKind.Function →
      checkPreStmt K CE C = .ok (K, [])) ∧
    (∀ FD ctx, C.getCalleeDecl CE = some FD → FD.getEnclosingNamespaceContext = some ctx →
      ctx.isNamespaceDecl = true → checkPreStmt K CE C = .ok (K, [])) ∧
    (∀ FD, C.getCalleeDecl CE = some FD → C.getCalleeName FD = "" →
      checkPreStmt K CE C = .ok (K, [])) ∧
    (∀ FD, C.getCalleeDecl CE = some FD → C.getCalleeName FD ≠ "pow" →
      C.getCalleeName FD ≠ "sqrt" → checkPreStmt K CE C = .ok (K, [])) ∧
    (∀ FD, C.getCalleeDecl CE = some FD → FD.getKind = DeclKind.Function →
      (∀ ctx, FD.getEnclosingNamespaceContext = some ctx → ctx.isNamespaceDecl = false) →
      C.getCalleeName FD = "pow" → checkPreStmt K CE C = checkPowArgs K CE C) ∧
    (∀ FD, C.getCalleeDecl CE = some FD → FD.getKind = DeclKind.Function →
      (∀ ctx, FD.getEnclosingNamespaceContext = some ctx → ctx.isNamespaceDecl = false) →
      C.getCalleeName FD = "sqrt" → checkPreStmt K CE C = checkSqrtArgs K CE C) := by
  refine ⟨?_, ?_, ?_, ?_, ?_, ?_, ?_⟩
  · intro h
    simp [checkPreStmt, h]
  · intro FD h hk
    simp [checkPreStmt, h, hk]
  · intro FD ctx h hc hn
    simp [checkPreStmt, h, hc, hn]
  · intro FD h hname
    have he : (C.getCalleeName FD).isEmpty = true := by rw [hname]; rfl
    simp only [checkPreStmt, h, he]
    repeat' first
      | rfl
      | split
  · intro FD h hp hs
    simp only [checkPreStmt, h]
    repeat' first
      | rfl
      | split
    · rename_i hpow
      exact absurd (by simpa using hpow) hp
    · rename_i hsqrt
      exact absurd (by simpa using hsqrt) hs
  · intro FD h hk hc hname
    have he : ("pow" : String).isEmpty = false := rfl
    have hctx : ((FD.getEnclosingNamespaceContext.map fun ctx => ctx.isNamespaceDecl)
        == some true) = false := by
      cases hns : FD.getEnclosingNamespaceContext with
      | none => rfl
      | some ctx => simp [hc ctx hns]
    simp [checkPreStmt, h, hk, hctx, he, hname]
  · intro FD h hk hc hname
    have he : ("sqrt" : String).isEmpty = false := rfl
    have hctx : ((FD.getEnclosingNamespaceContext.map fun ctx => ctx.isNamespaceDecl)
        == some true) = false := by
      cases hns : FD.getEnclosingNamespaceContext with
      | none => rfl
      | some ctx => simp [hc ctx hns]
    simp [checkPreStmt, h, hk, hctx, he, hname]

/-- Instances of C13: `sqrt(-1)` with an unresolved callee, with a member
function, with a callee in a namespace, with an unnamed callee and with the
callee `sqrtf`; `pow(0, -1)` with the callee `powf`; and the two routed calls
`pow(0, -1)` and `sqrt(-1)`. -/
theorem checkPreStmt_routes_witness :
    checkPreStmt new (call [intTy]) unresolvedCalleeHost = .ok (new, []) ∧
    checkPreStmt new (call [intTy]) methodCalleeHost = .ok (new, []) ∧
    checkPreStmt new (call [intTy]) namespacedCalleeHost = .ok (new, []) ∧
    checkPreStmt new (call [intTy]) unnamedCalleeHost = .ok (new, []) ∧
    checkPreStmt new (call [intTy]) sqrtfHost = .ok (new, []) ∧
    checkPreStmt new (call [intTy, intTy]) powfHost = .ok (new, []) ∧
    checkPreStmt new (call [intTy, intTy]) powZeroMinusOneHost
      = checkPowArgs new (call [intTy, intTy]) powZeroMinusOneHost ∧
    checkPreStmt new (call [intTy]) sqrtMinusOneHost
      = checkSqrtArgs new (call [intTy]) sqrtMinusOneHost :=
  ⟨(checkPreStmt_routes new (call [intTy]) unresolvedCalleeHost).1 rfl,
    (checkPreStmt_routes new (call [intTy]) methodCalleeHost).2.1
      ⟨100, .CXXMethod, some ⟨false⟩⟩ rfl (by decide),
    (checkPreStmt_routes new (call [intTy]) namespacedCalleeHost).2.2.1
      ⟨100, .Function, some ⟨true⟩⟩ ⟨true⟩ rfl rfl rfl,
    (checkPreStmt_routes new (call [intTy]) unnamedCalleeHost).2.2.2.1
      ⟨100, .Function, some ⟨false⟩⟩ rfl rfl,
    (checkPreStmt_routes new (call [intTy]) sqrtfHost).2.2.2.2.1
      ⟨100, .Function, some ⟨false⟩⟩ rfl (by decide) (by decide),
    (checkPreStmt_routes new (call [intTy, intTy]) powfHost).2.2.2.2.1
      ⟨100, .Function, some ⟨false⟩⟩ rfl (by decide) (by decide),
    (checkPreStmt_routes new (call [intTy, intTy]) powZeroMinusOneHost).2.2.2.2.2.1
      ⟨100, .Function, some ⟨false⟩⟩ rfl rfl (by intro ctx h; cases h; rfl) rfl,
    (checkPreStmt_routes new (call [intTy]) sqrtMinusOneHost).2.2.2.2.2.2
      ⟨100, .Function, some ⟨false⟩⟩ rfl rfl (by intro ctx h; cases h; rfl) rfl⟩

/-! ## The reporter -/

theorem findings_map_ReportBug_no_node (C : CheckerContext) (State : ProgramState)
    (SR : SourceRange) (BT : Option BugType) (K1 : MathFuncParamChecker)
    (hN : C.generateErrorNode State = none) :
    Outcome.findings ((ReportBug C State SR BT).map fun out => (K1, out)) = [] := by
  simp [ReportBug, hN, Outcome.findings, Except.map]

theorem checkSqrtArgs_no_node (K : MathFuncParamChecker) (CE : CallExpr) (C : CheckerContext)
    (hN : C.generateErrorNode C.getState = none) : (checkSqrtArgs K CE C).findings = [] := by
  unfold checkSqrtArgs
  repeat' first
    | rfl
    | exact findings_map_ReportBug_no_node _ _ _ _ _ hN
    | split
    | dsimp only

theorem checkPowArgs_no_node (K : MathFuncParamChecker) (CE : CallExpr) (C : CheckerContext)
    (hN : C.generateErrorNode C.getState = none) : (checkPowArgs K CE C).findings = [] := by
  unfold checkPowArgs
  repeat' first
    | rfl
    | exact findings_map_ReportBug_no_node _ _ _ _ _ hN
    | split
    | dsimp only

theorem checkPreStmt_no_node (K : MathFuncParamChecker) (CE : CallExpr) (C : CheckerContext)
    (hN : C.generateErrorNode C.getState = none) : (checkPreStmt K CE C).findings = [] := by
  unfold checkPreStmt
  repeat' first
    | rfl
    | exact checkSqrtArgs_no_node K CE C hN
    | exact checkPowArgs_no_node K CE C hN
    | split
    | dsimp only

/-- C14: for every bug type `bt` (in particular that of any violation kind),
source range and state.  If the host produces no error node for the state,
`ReportBug` returns normally with no report, and when that state is the
current one the whole evaluation of `checkPreStmt` has no finding.  If the
host produces the node `N`, `ReportBug` emits exactly one report: its message
is the description of `bt`, its only range is the given one, and it is built
from `bt` on `N`. -/
theorem ReportBug_contract (C : CheckerContext) (State : ProgramState) (SR : SourceRange)
    (bt : BugType) (K : MathFuncParamChecker) (CE : CallExpr) :
    (C.generateErrorNode State = none → ReportBug C State SR (some bt) = .ok []) ∧
    (C.generateErrorNode C.getState = none → (checkPreStmt K CE C).findings = []) ∧
    (∀ N, C.generateErrorNode State = some N →
      ∃ r, ReportBug C State SR (some bt) = .ok [r] ∧ r.Description = bt.getDescription ∧
        r.Ranges = [SR] ∧ r.BT = bt ∧ r.ErrorNode = N) := by
  refine ⟨fun h => ReportBug_no_node C State SR (some bt) h,
    fun h => checkPreStmt_no_node K CE C h, fun N h => ?_⟩
  exact ⟨_, ReportBug_of_node C State SR bt N h, rfl, rfl, rfl, rfl⟩

/-- Instances of C14: the bug type of `sqrt(-1)` reported at range `[0, 5]`
in a state without an error node, the evaluation of `sqrt(-1)` in that state,
and the same report in a state with the error node `0`. -/
theorem ReportBug_contract_witness :
    ReportBug (withoutErrorNode sqrtMinusOneHost) ⟨0⟩ ⟨0, 5⟩ (some sqrtMinusOneReport.BT)
      = .ok [] ∧
    (checkPreStmt new (call [intTy]) (withoutErrorNode sqrtMinusOneHost)).findings = [] ∧
    ∃ r, ReportBug sqrtMinusOneHost ⟨0⟩ ⟨0, 5⟩ (some sqrtMinusOneReport.BT) = .ok [r] ∧
      r.Description = sqrtMinusOneReport.BT.getDescription ∧
      r.Ranges = [⟨0, 5⟩] ∧ r.BT = sqrtMinusOneReport.BT ∧ r.ErrorNode = ⟨0⟩ :=
  ⟨(ReportBug_contract (withoutErrorNode sqrtMinusOneHost) ⟨0⟩ ⟨0, 5⟩ sqrtMinusOneReport.BT
      new (call [intTy])).1 rfl,
    (ReportBug_contract (withoutErrorNode sqrtMinusOneHost) ⟨0⟩ ⟨0, 5⟩ sqrtMinusOneReport.BT
      new (call [intTy])).2.1 rfl,
    (ReportBug_contract sqrtMinusOneHost ⟨0⟩ ⟨0, 5⟩ sqrtMinusOneReport.BT
      new (call [intTy])).2.2 ⟨0⟩ rfl⟩

/-! ## Missing arguments -/

theorem checkSqrtArgs_null_argument (K : MathFuncParamChecker) (CE : CallExpr)
    (C : CheckerContext) (h : CE.getArg 0 = .ok none) : checkSqrtArgs K CE C = .ok (K, []) := by
  simp [checkSqrtArgs, h]

theorem checkSqrtArgs_no_argument (K : MathFuncParamChecker) (CE : CallExpr)
    (C : CheckerContext) (h : CE.Args = []) :
    checkSqrtArgs K CE C = .error .ArgAccessOutOfRange := by
  simp [checkSqrtArgs, CallExpr.getArg, h]

theorem checkPowArgs_one_argument (K : MathFuncParamChecker) (CE : CallExpr)
    (C : CheckerContext) (x : Expr) (h : CE.Args = [some x]) :
    checkPowArgs K CE C = .error .ArgAccessOutOfRange := by
  simp [checkPowArgs, CallExpr.getArg, h]

/-- C15, evaluated at the calls `sqrt()`, `pow()` and `pow(x)`: the lookup of
argument 0, respectively 1, is out of range, and the evaluation faults in
`CallExpr::getArg` instead of returning; the null tests that follow the
lookups are never reached. -/
theorem missing_argument_faults :
    (call []).getArg 0 = .error .ArgAccessOutOfRange ∧
    (call [intTy]).getArg 1 = .error .ArgAccessOutOfRange ∧
    checkSqrtArgs new (call []) sqrtParamHost = .error .ArgAccessOutOfRange ∧
    checkPowArgs new (call []) powParamsHost = .error .ArgAccessOutOfRange ∧
    checkPowArgs new (call [intTy]) powParamsHost = .error .ArgAccessOutOfRange ∧
    checkPreStmt new (call []) sqrtParamHost = .error .ArgAccessOutOfRange ∧
    checkPreStmt new (call [intTy]) powParamsHost = .error .ArgAccessOutOfRange := by
  exact ⟨rfl, rfl, rfl, rfl, rfl, rfl, rfl⟩

/-! ## The two split rules of `pow` -/

/-- C16 as stated, without an error node: at `pow(x, y)` for two unconstrained
integer parameters, in a state for which the host produces no error node,
every premise of the rule holds (both arguments arithmetic, none of the first
three rules matches, `x` has a defined value whose split returns two states)
and yet no report is emitted. -/
theorem checkPowArgs_x_ambiguous_no_node :
    (call [intTy, intTy]).getArg 0 = .ok (some ⟨0, intTy, ⟨0, 5⟩⟩) ∧
    (call [intTy, intTy]).getArg 1 = .ok (some ⟨1, intTy, ⟨10, 15⟩⟩) ∧
    intTy.isArithmeticType = true ∧
    (withoutErrorNode powParamsHost).isGreaterOrEqual ⟨0, intTy, ⟨0, 5⟩⟩ 1 = false ∧
    (withoutErrorNode powParamsHost).isNegative ⟨1, intTy, ⟨10, 15⟩⟩ = false ∧
    (withoutErrorNode powParamsHost).isNegative ⟨0, intTy, ⟨0, 5⟩⟩ = false ∧
    ((withoutErrorNode powParamsHost).getSVal (withoutErrorNode powParamsHost).getState
      ⟨0, intTy, ⟨0, 5⟩⟩).getAsDefinedSVal = some ⟨0⟩ ∧
    ((withoutErrorNode powParamsHost).assumeDual (withoutErrorNode powParamsHost).getState
      ⟨0⟩).1.isSome = true ∧
    ((withoutErrorNode powParamsHost).assumeDual (withoutErrorNode powParamsHost).getState
      ⟨0⟩).2.isSome = true ∧
    (checkPowArgs new (call [intTy, intTy]) (withoutErrorNode powParamsHost)).findings = [] ∧
    ¬ ∃ K1 r, checkPowArgs new (call [intTy, intTy]) (withoutErrorNode powParamsHost)
      = .ok (K1, [r]) := by
  refine ⟨rfl, rfl, rfl, rfl, rfl, rfl, rfl, rfl, rfl, rfl, ?_⟩
  rintro ⟨K1, r, h⟩
  have hf : (checkPowArgs new (call [intTy, intTy]) (withoutErrorNode powParamsHost)).findings
      = [] := rfl
  rw [h] at hf
  simp [Outcome.findings] at hf

/-- C16, amended: a call `pow(x, y)` with both arguments of arithmetic type in
which none of the first three rules matches (`x` not provably at least `1`;
not both `y` provably negative and `x` not provably negative; not both `x`
provably negative and `y` of a non-integer type), `x` has a defined value and
its dual-assumption split returns two states, in a state for which the host
produces an error node, emits exactly one report; it is the
`PowArgXUndefined` finding, its only range is the range of `x`, and it is not
`PowArgYUndefined`, whatever the host answers about the split of `y`. -/
theorem checkPowArgs_x_ambiguous_reports (K : MathFuncParamChecker) (CE : CallExpr)
    (C : CheckerContext) (x y : Expr) (DVX : DefinedSVal) (N : ExplodedNode)
    (hx : CE.getArg 0 = .ok (some x))
    (hy : CE.getArg 1 = .ok (some y))
    (htx : x.getType.isArithmeticType = true)
    (hty : y.getType.isArithmeticType = true)
    (hge : C.isGreaterOrEqual x 1 = false)
    (hpole : ¬ (C.isNegative y = true ∧ C.isNegative x = false))
    (hdom : ¬ (C.isNegative x = true ∧ y.getType.isIntegerType = false))
    (hdef : (C.getSVal C.getState x).getAsDefinedSVal = some DVX)
    (htrue : (C.assumeDual C.getState DVX).1.isSome = true)
    (hfalse : (C.assumeDual C.getState DVX).2.isSome = true)
    (hN : C.generateErrorNode C.getState = some N) :
    ∃ K1 r, checkPowArgs K CE C = .ok (K1, [r]) ∧
      r.isFinding .PowArgXUndefined x.getSourceRange ∧
      r.kind ≠ some .PowArgYUndefined ∧ r.ErrorNode = N := by
  refine ⟨resetPowBugtype K
      "First pow argument is undefined, could cause domain or range error"
      "Math func input args error",
    ⟨⟨K.allocated, "First pow argument is undefined, could cause domain or range error",
      "Math func input args error"⟩,
      "First pow argument is undefined, could cause domain or range error", N,
      [x.getSourceRange]⟩, ?eq, ⟨rfl, rfl, rfl, rfl⟩, ?ne, rfl⟩
  case ne =>
    intro h
    have h2 : some ViolationKind.PowArgXUndefined = some ViolationKind.PowArgYUndefined := h
    cases h2
  cases hny : C.isNegative y <;> cases hnx : C.isNegative x <;>
    cases hi : y.getType.isIntegerType <;>
    simp_all [checkPowArgs, resetPowBugtype, ReportBug_of_node _ _ _ _ N hN, Except.map]

/-- The instance `pow(x, y)`, two unconstrained integer parameters, of the
amended C16; the split of `y` returns two states as well. -/
theorem checkPowArgs_x_ambiguous_reports_witness :
    (powParamsHost.assumeDual powParamsHost.getState ⟨1⟩).1.isSome = true ∧
    (powParamsHost.assumeDual powParamsHost.getState ⟨1⟩).2.isSome = true ∧
    ∃ K1 r, checkPowArgs new (call [intTy, intTy]) powParamsHost = .ok (K1, [r]) ∧
      r.isFinding .PowArgXUndefined ⟨0, 5⟩ ∧
      r.kind ≠ some .PowArgYUndefined ∧ r.ErrorNode = ⟨0⟩ :=
  ⟨rfl, rfl,
    checkPowArgs_x_ambiguous_reports new (call [intTy, intTy]) powParamsHost
      ⟨0, intTy, ⟨0, 5⟩⟩ ⟨1, intTy, ⟨10, 15⟩⟩ ⟨0⟩ ⟨0⟩ rfl rfl rfl rfl rfl
      (by decide) (by decide) rfl rfl rfl rfl⟩

/-- C17 as stated, without an error node: at `pow(0, y)` for an unconstrained
integer parameter `y`, in a state for which the host produces no error node,
every premise of the rule holds (both arguments arithmetic, none of the first
three rules matches, `x` has a defined value whose split returns one state
only, `y` has a defined value whose split returns two) and yet no report is
emitted. -/
theorem checkPowArgs_y_ambiguous_no_node :
    (call [intTy, intTy]).getArg 0 = .ok (some ⟨0, intTy, ⟨0, 5⟩⟩) ∧
    (call [intTy, intTy]).getArg 1 = .ok (some ⟨1, intTy, ⟨10, 15⟩⟩) ∧
    intTy.isArithmeticType = true ∧
    (withoutErrorNode powZeroParamHost).isGreaterOrEqual ⟨0, intTy, ⟨0, 5⟩⟩ 1 = false ∧
    (withoutErrorNode powZeroParamHost).isNegative ⟨1, intTy, ⟨10, 15⟩⟩ = false ∧
    (withoutErrorNode powZeroParamHost).isNegative ⟨0, intTy, ⟨0, 5⟩⟩ = false ∧
    ((withoutErrorNode powZeroParamHost).getSVal (withoutErrorNode powZeroParamHost).getState
      ⟨0, intTy, ⟨0, 5⟩⟩).getAsDefinedSVal = some ⟨0⟩ ∧
    ((withoutErrorNode powZeroParamHost).assumeDual
      (withoutErrorNode powZeroParamHost).getState ⟨0⟩).1.isSome = false ∧
    ((withoutErrorNode powZeroParamHost).getSVal (withoutErrorNode powZeroParamHost).getState
      ⟨1, intTy, ⟨10, 15⟩⟩).getAsDefinedSVal = some ⟨1⟩ ∧
    ((withoutErrorNode powZeroParamHost).assumeDual
      (withoutErrorNode powZeroParamHost).getState ⟨1⟩).1.isSome = true ∧
    ((withoutErrorNode powZeroParamHost).assumeDual
      (withoutErrorNode powZeroParamHost).getState ⟨1⟩).2.isSome = true ∧
    (checkPowArgs new (call [intTy, intTy]) (withoutErrorNode powZeroParamHost)).findings
      = [] ∧
    ¬ ∃ K1 r, checkPowArgs new (call [intTy, intTy]) (withoutErrorNode powZeroParamHost)
      = .ok (K1, [r]) := by
  refine ⟨rfl, rfl, rfl, rfl, rfl, rfl, rfl, rfl, rfl, rfl, rfl, rfl, ?_⟩
  rintro ⟨K1, r, h⟩
  have hf : (checkPowArgs new (call [intTy, intTy])
      (withoutErrorNode powZeroParamHost)).findings = [] := rfl
  rw [h] at hf
  simp [Outcome.findings] at hf

/-- C17, amended: a call `pow(x, y)` with both arguments of arithmetic type in
which none of the first three rules matches, `x` has a defined value whose
dual-assumption split does not return two states, and `y` has a defined value
whose split returns two states, in a state for which the host produces an
error node, emits exactly one report; it is the `PowArgYUndefined` finding,
and its only range is the range of `x`. -/
theorem checkPowArgs_y_ambiguous_reports (K : MathFuncParamChecker) (CE : CallExpr)
    (C : CheckerContext) (x y : Expr) (DVX DVY : DefinedSVal) (N : ExplodedNode)
    (hx : CE.getArg 0 = .ok (some x))
    (hy : CE.getArg 1 = .ok (some y))
    (htx : x.getType.isArithmeticType = true)
    (hty : y.getType.isArithmeticType = true)
    (hge : C.isGreaterOrEqual x 1 = false)
    (hpole : ¬ (C.isNegative y = true ∧ C.isNegative x = false))
    (hdom : ¬ (C.isNegative x = true ∧ y.getType.isIntegerType = false))
    (hdefx : (C.getSVal C.getState x).getAsDefinedSVal = some DVX)
    (hsplitx : ¬ ((C.assumeDual C.getState DVX).1.isSome = true ∧
      (C.assumeDual C.getState DVX).2.isSome = true))
    (hdefy : (C.getSVal C.getState y).getAsDefinedSVal = some DVY)
    (htrue : (C.assumeDual C.getState DVY).1.isSome = true)
    (hfalse : (C.assumeDual C.getState DVY).2.isSome = true)
    (hN : C.generateErrorNode C.getState = some N) :
    ∃ K1 r, checkPowArgs K CE C = .ok (K1, [r]) ∧
      r.isFinding .PowArgYUndefined x.getSourceRange ∧ r.ErrorNode = N := by
  refine ⟨resetPowBugtype K
      "Second pow argument is undefined, could cause domain or range error"
      "Math func input args error",
    ⟨⟨K.allocated, "Second pow argument is undefined, could cause domain or range error",
      "Math func input args error"⟩,
      "Second pow argument is undefined, could cause domain or range error", N,
      [x.getSourceRange]⟩, ?_, ⟨rfl, rfl, rfl, rfl⟩, rfl⟩
  cases hny : C.isNegative y <;> cases hnx : C.isNegative x <;>
    cases hi : y.getType.isIntegerType <;>
    cases h1 : (C.assumeDual C.getState DVX).1.isSome <;>
    cases h2 : (C.assumeDual C.getState DVX).2.isSome <;>
    simp_all [checkPowArgs, resetPowBugtype, ReportBug_of_node _ _ _ _ N hN, Except.map]

/-- The instance `pow(0, y)`, `y` an unconstrained integer parameter, of the
amended C17; the range of the report is that of the first argument and differs
from that of the second. -/
theorem checkPowArgs_y_ambiguous_reports_witness :
    (⟨0, 5⟩ : SourceRange) ≠ ⟨10, 15⟩ ∧
    ∃ K1 r, checkPowArgs new (call [intTy, intTy]) powZeroParamHost = .ok (K1, [r]) ∧
      r.isFinding .PowArgYUndefined ⟨0, 5⟩ ∧ r.ErrorNode = ⟨0⟩ :=
  ⟨by decide,
    checkPowArgs_y_ambiguous_reports new (call [intTy, intTy]) powZeroParamHost
      ⟨0, intTy, ⟨0, 5⟩⟩ ⟨1, intTy, ⟨10, 15⟩⟩ ⟨0⟩ ⟨1⟩ ⟨0⟩ rfl rfl rfl rfl rfl
      (by decide) (by decide) rfl (by decide) rfl rfl rfl rfl⟩

/-! ## Abstention on a value that is not defined -/

/-- C18: no report, and an unchanged checker, when the value to split is
not a defined value.  In `checkSqrtArgs`: neither the safe rule nor the rule
of the definite finding matches and the value of `x` is not defined.  In `checkPowArgs`: none of
the first three rules matches and the value of `x` is not defined, whatever
the value of `y` and its split; or the value of `x` is defined, its split does
not return two states, and the value of `y` is not defined. -/
theorem undefined_value_abstains (K : MathFuncParamChecker) (CE : CallExpr)
    (C : CheckerContext) (x y : Expr) :
    (CE.getArg 0 = .ok (some x) →
      ¬ (x.getType.isArithmeticType = true ∧ C.isGreaterOrEqual x 0 = true) →
      ¬ (x.getType.isArithmeticType = true ∧ C.isNegative x = true) →
      (C.getSVal C.getState x).getAsDefinedSVal = none →
      checkSqrtArgs K CE C = .ok (K, [])) ∧
    (CE.getArg 0 = .ok (some x) → CE.getArg 1 = .ok (some y) →
      C.isGreaterOrEqual x 1 = false →
      ¬ (C.isNegative y = true ∧ C.isNegative x = false) →
      ¬ (C.isNegative x = true ∧ y.getType.isIntegerType = false) →
      (C.getSVal C.getState x).getAsDefinedSVal = none →
      checkPowArgs K CE C = .ok (K, [])) ∧
    (∀ DVX, CE.getArg 0 = .ok (some x) → CE.getArg 1 = .ok (some y) →
      C.isGreaterOrEqual x 1 = false →
      ¬ (C.isNegative y = true ∧ C.isNegative x = false) →
      ¬ (C.isNegative x = true ∧ y.getType.isIntegerType = false) →
      (C.getSVal C.getState x).getAsDefinedSVal = some DVX →
      ¬ ((C.assumeDual C.getState DVX).1.isSome = true ∧
        (C.assumeDual C.getState DVX).2.isSome = true) →
      (C.getSVal C.getState y).getAsDefinedSVal = none →
      checkPowArgs K CE C = .ok (K, [])) := by
  refine ⟨?_, ?_, ?_⟩
  · intro hx h1 h2 hdef
    cases hty : x.getType.isArithmeticType <;> cases hge : C.isGreaterOrEqual x 0 <;>
      cases hn : C.isNegative x <;> simp_all [checkSqrtArgs]
  · intro hx hy hge h2 h3 hdef
    cases hny : C.isNegative y <;> cases hnx : C.isNegative x <;>
      cases hi : y.getType.isIntegerType <;> simp_all [checkPowArgs]
  · intro DVX hx hy hge h2 h3 hdefx hsplit hdefy
    cases hny : C.isNegative y <;> cases hnx : C.isNegative x <;>
      cases hi : y.getType.isIntegerType <;>
      cases h1 : (C.assumeDual C.getState DVX).1.isSome <;>
      cases h2 : (C.assumeDual C.getState DVX).2.isSome <;>
      simp_all [checkPowArgs]

/-- Instances of C18: `sqrt(x)` with no value for `x`; `pow(x, y)` with no
value for `x` and `y` unconstrained (its split returns two states); `pow(0, y)`
with no value for `y`. -/
theorem undefined_value_abstains_witness :
    checkSqrtArgs new (call [intTy]) sqrtUnknownHost = .ok (new, []) ∧
    ((powUnknownBaseHost.assumeDual powUnknownBaseHost.getState ⟨1⟩).1.isSome = true ∧
      (powUnknownBaseHost.assumeDual powUnknownBaseHost.getState ⟨1⟩).2.isSome = true ∧
      checkPowArgs new (call [intTy, intTy]) powUnknownBaseHost = .ok (new, [])) ∧
    checkPowArgs new (call [intTy, intTy]) powZeroUnknownHost = .ok (new, []) :=
  ⟨(undefined_value_abstains new (call [intTy]) sqrtUnknownHost
      ⟨0, intTy, ⟨0, 5⟩⟩ ⟨0, intTy, ⟨0, 5⟩⟩).1 rfl (by decide) (by decide) rfl,
    ⟨rfl, rfl,
      (undefined_value_abstains new (call [intTy, intTy]) powUnknownBaseHost
        ⟨0, intTy, ⟨0, 5⟩⟩ ⟨1, intTy, ⟨10, 15⟩⟩).2.1 rfl rfl rfl (by decide) (by decide) rfl⟩,
    (undefined_value_abstains new (call [intTy, intTy]) powZeroUnknownHost
      ⟨0, intTy, ⟨0, 5⟩⟩ ⟨1, intTy, ⟨10, 15⟩⟩).2.2 ⟨0⟩ rfl rfl rfl (by decide) (by decide)
      rfl (by decide) rfl⟩

/-! ## The third conjunct of the pole-error guard -/

/-- C19: `checkPowArgs` equals, for every checker, call expression and host,
the variant whose pole-error guard is only "`y` provably negative and `x` not
provably negative": the guard is evaluated only after `isGreaterOrEqual(x, 1)`
has been found false, and the host answers the repeated query alike. -/
theorem checkPowArgs_eq_twoConjunct (K : MathFuncParamChecker) (CE : CallExpr)
    (C : CheckerContext) : checkPowArgs K CE C = checkPowArgsTwoConjunct K CE C := by
  unfold checkPowArgs checkPowArgsTwoConjunct
  rcases CE.getArg 0 with f | (_ | x)
  · rfl
  · rfl
  · rcases CE.getArg 1 with f | (_ | y)
    · rfl
    · rfl
    · dsimp only
      cases hge : C.isGreaterOrEqual x 1 <;> simp

/-! ## The frame of the bug-type fields -/

theorem map_ReportBug_eq_ok (C : CheckerContext) (State : ProgramState) (SR : SourceRange)
    (BT : Option BugType) (K0 K1 : MathFuncParamChecker) (out : List PathSensitiveBugReport)
    (h : ((ReportBug C State SR BT).map fun o => (K0, o)) = .ok (K1, out)) :
    K1 = K0 ∧ ReportBug C State SR BT = .ok out := by
  cases hr : ReportBug C State SR BT with
  | error f => simp [hr, Except.map] at h
  | ok o =>
    simp [hr, Except.map] at h
    exact ⟨h.1.symm, by rw [h.2]⟩

theorem checkSqrtArgs_frame (K K1 : MathFuncParamChecker) (CE : CallExpr) (C : CheckerContext)
    (out : List PathSensitiveBugReport) (h : checkSqrtArgs K CE C = .ok (K1, out)) :
    (K1 = K ∧ out = []) ∨
      ∃ x k, CE.getArg 0 = .ok (some x) ∧
        K1 = resetSqrtBugType K (ViolationKind.message k) "Math func input args error" ∧
        ReportBug C C.getState x.getSourceRange K1.SqrtBugType = .ok out := by
  unfold checkSqrtArgs at h
  split at h
  · cases h
  · cases h; exact Or.inl ⟨rfl, rfl⟩
  · rename_i x hx
    dsimp only at h
    split at h
    · cases h; exact Or.inl ⟨rfl, rfl⟩
    · split at h
      · obtain ⟨h1, h2⟩ := map_ReportBug_eq_ok _ _ _ _ _ _ _ h
        subst h1
        exact Or.inr ⟨x, .SqrtNegativeArgument, hx, rfl, h2⟩
      · split at h
        · cases h; exact Or.inl ⟨rfl, rfl⟩
        · split at h
          · obtain ⟨h1, h2⟩ := map_ReportBug_eq_ok _ _ _ _ _ _ _ h
            subst h1
            exact Or.inr ⟨x, .SqrtMaybeNegative, hx, rfl, h2⟩
          · cases h; exact Or.inl ⟨rfl, rfl⟩

theorem checkPowArgs_frame (K K1 : MathFuncParamChecker) (CE : CallExpr) (C : CheckerContext)
    (out : List PathSensitiveBugReport) (h : checkPowArgs K CE C = .ok (K1, out)) :
    (K1 = K ∧ out = []) ∨
      ∃ x k, CE.getArg 0 = .ok (some x) ∧
        K1 = resetPowBugtype K (ViolationKind.message k) "Math func input args error" ∧
        ReportBug C C.getState x.getSourceRange K1.PowBugtype = .ok out := by
  unfold checkPowArgs at h
  split at h
  · cases h
  · cases h; exact Or.inl ⟨rfl, rfl⟩
  · rename_i x hx
    split at h
    · cases h
    · cases h; exact Or.inl ⟨rfl, rfl⟩
    · dsimp only at h
      split at h
      · cases h; exact Or.inl ⟨rfl, rfl⟩
      · split at h
        · cases h; exact Or.inl ⟨rfl, rfl⟩
        · split at h
          · obtain ⟨h1, h2⟩ := map_ReportBug_eq_ok _ _ _ _ _ _ _ h
            subst h1
            exact Or.inr ⟨x, .PowPoleError, hx, rfl, h2⟩
          · split at h
            · obtain ⟨h1, h2⟩ := map_ReportBug_eq_ok _ _ _ _ _ _ _ h
              subst h1
              exact Or.inr ⟨x, .PowDomainError, hx, rfl, h2⟩
            · split at h
              · cases h; exact Or.inl ⟨rfl, rfl⟩
              · split at h
                · obtain ⟨h1, h2⟩ := map_ReportBug_eq_ok _ _ _ _ _ _ _ h
                  subst h1
                  exact Or.inr ⟨x, .PowArgXUndefined, hx, rfl, h2⟩
                · split at h
                  · cases h; exact Or.inl ⟨rfl, rfl⟩
                  · split at h
                    · obtain ⟨h1, h2⟩ := map_ReportBug_eq_ok _ _ _ _ _ _ _ h
                      subst h1
                      exact Or.inr ⟨x, .PowArgYUndefined, hx, rfl, h2⟩
                    · cases h; exact Or.inl ⟨rfl, rfl⟩

theorem checkPreStmt_of_pow (K : MathFuncParamChecker) (CE : CallExpr) (C : CheckerContext)
    (FD : FunctionDecl) (h : C.getCalleeDecl CE = some FD)
    (hk : FD.getKind = DeclKind.Function)
    (hc : ∀ ctx, FD.getEnclosingNamespaceContext = some ctx → ctx.isNamespaceDecl = false)
    (hname : C.getCalleeName FD = "pow") : checkPreStmt K CE C = checkPowArgs K CE C := by
  have he : ("pow" : String).isEmpty = false := rfl
  have hctx : ((FD.getEnclosingNamespaceContext.map fun ctx => ctx.isNamespaceDecl)
      == some true) = false := by
    cases hns : FD.getEnclosingNamespaceContext with
    | none => rfl
    | some ctx => simp [hc ctx hns]
  simp [checkPreStmt, h, hk, hctx, he, hname]

theorem checkPreStmt_of_sqrt (K : MathFuncParamChecker) (CE : CallExpr) (C : CheckerContext)
    (FD : FunctionDecl) (h : C.getCalleeDecl CE = some FD)
    (hk : FD.getKind = DeclKind.Function)
    (hc : ∀ ctx, FD.getEnclosingNamespaceContext = some ctx → ctx.isNamespaceDecl = false)
    (hname : C.getCalleeName FD = "sqrt") : checkPreStmt K CE C = checkSqrtArgs K CE C := by
  have he : ("sqrt" : String).isEmpty = false := rfl
  have hctx : ((FD.getEnclosingNamespaceContext.map fun ctx => ctx.isNamespaceDecl)
      == some true) = false := by
    cases hns : FD.getEnclosingNamespaceContext with
    | none => rfl
    | some ctx => simp [hc ctx hns]
  simp [checkPreStmt, h, hk, hctx, he, hname]

theorem checkPreStmt_out_of_scope (K : MathFuncParamChecker) (CE : CallExpr)
    (C : CheckerContext)
    (h : C.getCalleeDecl CE = none ∨
      ∃ FD, C.getCalleeDecl CE = some FD ∧
        (FD.getKind ≠ DeclKind.Function ∨
          (∃ ctx, FD.getEnclosingNamespaceContext = some ctx ∧ ctx.isNamespaceDecl = true) ∨
          (C.getCalleeName FD ≠ "pow" ∧ C.getCalleeName FD ≠ "sqrt"))) :
    checkPreStmt K CE C = .ok (K, []) := by
  rcases h with h | ⟨FD, h, hk | ⟨ctx, hc, hn⟩ | ⟨hp, hs⟩⟩
  · simp [checkPreStmt, h]
  · simp [checkPreStmt, h, hk]
  · simp [checkPreStmt, h, hc, hn]
  · simp only [checkPreStmt, h]
    repeat' first
      | rfl
      | split
    · rename_i hpow
      exact absurd (by simpa using hpow) hp
    · rename_i hsqrt
      exact absurd (by simpa using hsqrt) hs

theorem checkSqrtArgs_no_report_path (K : MathFuncParamChecker) (CE : CallExpr)
    (C : CheckerContext) (x : Expr)
    (hx : CE.getArg 0 = .ok (some x))
    (h : (x.getType.isArithmeticType = true ∧ C.isGreaterOrEqual x 0 = true) ∨
      (¬ (x.getType.isArithmeticType = true ∧ C.isNegative x = true) ∧
        ((C.getSVal C.getState x).getAsDefinedSVal = none ∨
          ∃ DV, (C.getSVal C.getState x).getAsDefinedSVal = some DV ∧
            ¬ ((C.assumeDual C.getState DV).1.isSome = true ∧
              (C.assumeDual C.getState DV).2.isSome = true)))) :
    checkSqrtArgs K CE C = .ok (K, []) := by
  rcases h with ⟨ht, hg⟩ | ⟨hn, hu | ⟨DV, hd, hs⟩⟩
  · simp [checkSqrtArgs, hx, ht, hg]
  · cases hty : x.getType.isArithmeticType <;> cases hge : C.isGreaterOrEqual x 0 <;>
      cases hneg : C.isNegative x <;> simp_all [checkSqrtArgs]
  · cases hty : x.getType.isArithmeticType <;> cases hge : C.isGreaterOrEqual x 0 <;>
      cases hneg : C.isNegative x <;>
      cases h1 : (C.assumeDual C.getState DV).1.isSome <;>
      cases h2 : (C.assumeDual C.getState DV).2.isSome <;>
      simp_all [checkSqrtArgs]

theorem checkPowArgs_no_report_path (K : MathFuncParamChecker) (CE : CallExpr)
    (C : CheckerContext) (x y : Expr)
    (hx : CE.getArg 0 = .ok (some x))
    (hy : CE.getArg 1 = .ok (some y))
    (h : x.getType.isArithmeticType = false ∨ y.getType.isArithmeticType = false ∨
      C.isGreaterOrEqual x 1 = true ∨
      (¬ (C.isNegative y = true ∧ C.isNegative x = false) ∧
        ¬ (C.isNegative x = true ∧ y.getType.isIntegerType = false) ∧
        ((C.getSVal C.getState x).getAsDefinedSVal = none ∨
          ∃ DVX, (C.getSVal C.getState x).getAsDefinedSVal = some DVX ∧
            ¬ ((C.assumeDual C.getState DVX).1.isSome = true ∧
              (C.assumeDual C.getState DVX).2.isSome = true) ∧
            ((C.getSVal C.getState y).getAsDefinedSVal = none ∨
              ∃ DVY, (C.getSVal C.getState y).getAsDefinedSVal = some DVY ∧
                ¬ ((C.assumeDual C.getState DVY).1.isSome = true ∧
                  (C.assumeDual C.getState DVY).2.isSome = true))))) :
    checkPowArgs K CE C = .ok (K, []) := by
  unfold checkPowArgs
  simp only [hx, hy]
  repeat' first
    | rfl
    | split
  all_goals
    exfalso
    rcases h with ht | ht | hg | ⟨hp, hd, hu | ⟨DVX, hdx, hsx, hu | ⟨DVY, hdy, hsy⟩⟩⟩ <;>
      simp_all

/-- C20: the bug-type fields change only on a report path.  An evaluation of
`checkPreStmt` that reaches no call of `ReportBug` returns the checker as it
was, both fields included, with no report.  That is so for an out-of-scope
call (unresolved callee, not a plain function, in a namespace, a name other
than `pow` and `sqrt`); for a call of `pow` with a non-arithmetic argument,
with `x` provably at least `1`, or, the pole and domain rules not matching,
with a value of `x` or `y` that is not defined or with splits that do not
return two states; and for a call of `sqrt` with an arithmetic `x` provably
non-negative, or, the negative rule not matching, with a value that is
not defined or a split that does not return two states.  Conversely, every
evaluation that returns either returned the checker as it was, or entered a
report site: one field was reset to a new bug type carrying the description
of a violation kind, and the reports are those of the call of `ReportBug` on
that field.  Moreover `checkSqrtArgs` never changes `PowBugtype` and
`checkPowArgs` never changes `SqrtBugType`. -/
theorem bugtype_fields_change_only_on_report_path (K K1 : MathFuncParamChecker)
    (CE : CallExpr) (C : CheckerContext) (out : List PathSensitiveBugReport) (x y : Expr) :
    ((C.getCalleeDecl CE = none ∨
        ∃ FD, C.getCalleeDecl CE = some FD ∧
          (FD.getKind ≠ DeclKind.Function ∨
            (∃ ctx, FD.getEnclosingNamespaceContext = some ctx ∧ ctx.isNamespaceDecl = true) ∨
            (C.getCalleeName FD ≠ "pow" ∧ C.getCalleeName FD ≠ "sqrt"))) →
      checkPreStmt K CE C = .ok (K, [])) ∧
    (∀ FD, C.getCalleeDecl CE = some FD → FD.getKind = DeclKind.Function →
      (∀ ctx, FD.getEnclosingNamespaceContext = some ctx → ctx.isNamespaceDecl = false) →
      C.getCalleeName FD = "pow" →
      CE.getArg 0 = .ok (some x) → CE.getArg 1 = .ok (some y) →
      (x.getType.isArithmeticType = false ∨ y.getType.isArithmeticType = false ∨
        C.isGreaterOrEqual x 1 = true ∨
        (¬ (C.isNegative y = true ∧ C.isNegative x = false) ∧
          ¬ (C.isNegative x = true ∧ y.getType.isIntegerType = false) ∧
          ((C.getSVal C.getState x).getAsDefinedSVal = none ∨
            ∃ DVX, (C.getSVal C.getState x).getAsDefinedSVal = some DVX ∧
              ¬ ((C.assumeDual C.getState DVX).1.isSome = true ∧
                (C.assumeDual C.getState DVX).2.isSome = true) ∧
              ((C.getSVal C.getState y).getAsDefinedSVal = none ∨
                ∃ DVY, (C.getSVal C.getState y).getAsDefinedSVal = some DVY ∧
                  ¬ ((C.assumeDual C.getState DVY).1.isSome = true ∧
                    (C.assumeDual C.getState DVY).2.isSome = true))))) →
      checkPreStmt K CE C = .ok (K, [])) ∧
    (∀ FD, C.getCalleeDecl CE = some FD → FD.getKind = DeclKind.Function →
      (∀ ctx, FD.getEnclosingNamespaceContext = some ctx → ctx.isNamespaceDecl = false) →
      C.getCalleeName FD = "sqrt" →
      CE.getArg 0 = .ok (some x) →
      ((x.getType.isArithmeticType = true ∧ C.isGreaterOrEqual x 0 = true) ∨
        (¬ (x.getType.isArithmeticType = true ∧ C.isNegative x = true) ∧
          ((C.getSVal C.getState x).getAsDefinedSVal = none ∨
            ∃ DV, (C.getSVal C.getState x).getAsDefinedSVal = some DV ∧
              ¬ ((C.assumeDual C.getState DV).1.isSome = true ∧
                (C.assumeDual C.getState DV).2.isSome = true)))) →
      checkPreStmt K CE C = .ok (K, [])) ∧
    (checkPreStmt K CE C = .ok (K1, out) →
      (K1 = K ∧ out = []) ∨
        ∃ x k, CE.getArg 0 = .ok (some x) ∧
          ((K1 = resetSqrtBugType K (ViolationKind.message k) "Math func input args error" ∧
              ReportBug C C.getState x.getSourceRange K1.SqrtBugType = .ok out) ∨
            (K1 = resetPowBugtype K (ViolationKind.message k) "Math func input args error" ∧
              ReportBug C C.getState x.getSourceRange K1.PowBugtype = .ok out))) ∧
    (checkSqrtArgs K CE C = .ok (K1, out) → K1.PowBugtype = K.PowBugtype) ∧
    (checkPowArgs K CE C = .ok (K1, out) → K1.SqrtBugType = K.SqrtBugType) := by
  refine ⟨checkPreStmt_out_of_scope K CE C, ?_, ?_, ?_, ?_, ?_⟩
  · intro FD h hk hc hname hx hy hclass
    rw [checkPreStmt_of_pow K CE C FD h hk hc hname]
    exact checkPowArgs_no_report_path K CE C x y hx hy hclass
  · intro FD h hk hc hname hx hclass
    rw [checkPreStmt_of_sqrt K CE C FD h hk hc hname]
    exact checkSqrtArgs_no_report_path K CE C x hx hclass
  · intro h
    unfold checkPreStmt at h
    split at h
    · cases h; exact Or.inl ⟨rfl, rfl⟩
    · split at h
      · cases h; exact Or.inl ⟨rfl, rfl⟩
      · dsimp only at h
        split at h
        · cases h; exact Or.inl ⟨rfl, rfl⟩
        · split at h
          · cases h; exact Or.inl ⟨rfl, rfl⟩
          · split at h
            · rcases checkPowArgs_frame K K1 CE C out h with h0 | ⟨x, k, hx, hK, hR⟩
              · exact Or.inl h0
              · exact Or.inr ⟨x, k, hx, Or.inr ⟨hK, hR⟩⟩
            · split at h
              · rcases checkSqrtArgs_frame K K1 CE C out h with h0 | ⟨x, k, hx, hK, hR⟩
                · exact Or.inl h0
                · exact Or.inr ⟨x, k, hx, Or.inl ⟨hK, hR⟩⟩
              · cases h; exact Or.inl ⟨rfl, rfl⟩
  · intro h
    rcases checkSqrtArgs_frame K K1 CE C out h with h0 | ⟨x, k, _, hK, _⟩
    · rw [h0.1]
    · rw [hK]; rfl
  · intro h
    rcases checkPowArgs_frame K K1 CE C out h with h0 | ⟨x, k, _, hK, _⟩
    · rw [h0.1]
    · rw [hK]; rfl

theorem checkPreStmt_powTwo :
    checkPreStmt new (call [intTy, doubleTy]) powTwoHost = .ok (new, []) := rfl

/-- Instances of C20.  No report site is reached by `sqrtf(-1)` (out of
scope), by `pow(0, 0)` (neither split returns two states), by `sqrt(e)` with
`e` a scoped enumeration value equal to `0` (the split returns one state), and
by `pow(2, y)` (provably safe): each returns the fresh checker as it was.
`sqrt(-1)` resets `SqrtBugType` and keeps `PowBugtype`; `pow(0, -1)` resets
`PowBugtype` and keeps `SqrtBugType`. -/
theorem bugtype_fields_change_only_on_report_path_witness :
    checkPreStmt new (call [intTy]) sqrtfHost = .ok (new, []) ∧
    checkPreStmt new (call [intTy, intTy]) powZeroZeroHost = .ok (new, []) ∧
    checkPreStmt new (call [scopedEnumTy]) sqrtEnumZeroHost = .ok (new, []) ∧
    checkPreStmt new (call [intTy, doubleTy]) powTwoHost = .ok (new, []) ∧
    (((new : MathFuncParamChecker) = new ∧ ([] : List PathSensitiveBugReport) = []) ∨
      ∃ x k, (call [intTy, doubleTy]).getArg 0 = .ok (some x) ∧
        ((new = resetSqrtBugType new (ViolationKind.message k) "Math func input args error" ∧
            ReportBug powTwoHost powTwoHost.getState x.getSourceRange new.SqrtBugType
              = .ok []) ∨
          (new = resetPowBugtype new (ViolationKind.message k) "Math func input args error" ∧
            ReportBug powTwoHost powTwoHost.getState x.getSourceRange new.PowBugtype
              = .ok []))) ∧
    (resetSqrtBugType new "Function argument is negative, domain error"
        "Math func input args error").SqrtBugType ≠ new.SqrtBugType ∧
    (resetSqrtBugType new "Function argument is negative, domain error"
        "Math func input args error").PowBugtype = new.PowBugtype ∧
    (resetPowBugtype new "Pole error: if first argument is 0, second argument must be positive"
        "Math func input args error").PowBugtype ≠ new.PowBugtype ∧
    (resetPowBugtype new "Pole error: if first argument is 0, second argument must be positive"
        "Math func input args error").SqrtBugType = new.SqrtBugType :=
  ⟨(bugtype_fields_change_only_on_report_path new new (call [intTy]) sqrtfHost []
      ⟨0, intTy, ⟨0, 5⟩⟩ ⟨0, intTy, ⟨0, 5⟩⟩).1
      (Or.inr ⟨⟨100, .Function, some ⟨false⟩⟩, rfl,
        Or.inr (Or.inr ⟨by decide, by decide⟩)⟩),
    (bugtype_fields_change_only_on_report_path new new (call [intTy, intTy]) powZeroZeroHost []
      ⟨0, intTy, ⟨0, 5⟩⟩ ⟨1, intTy, ⟨10, 15⟩⟩).2.1
      ⟨100, .Function, some ⟨false⟩⟩ rfl rfl (by intro ctx h; cases h; rfl) rfl rfl rfl
      (Or.inr (Or.inr (Or.inr ⟨by decide, by decide,
        Or.inr ⟨⟨0⟩, rfl, by decide, Or.inr ⟨⟨1⟩, rfl, by decide⟩⟩⟩))),
    (bugtype_fields_change_only_on_report_path new new (call [scopedEnumTy]) sqrtEnumZeroHost []
      ⟨0, scopedEnumTy, ⟨0, 5⟩⟩ ⟨0, scopedEnumTy, ⟨0, 5⟩⟩).2.2.1
      ⟨100, .Function, some ⟨false⟩⟩ rfl rfl (by intro ctx h; cases h; rfl) rfl rfl
      (Or.inr ⟨by decide, Or.inr ⟨⟨0⟩, rfl, by decide⟩⟩),
    checkPreStmt_powTwo,
    (bugtype_fields_change_only_on_report_path new new (call [intTy, doubleTy]) powTwoHost
      [] ⟨0, intTy, ⟨0, 5⟩⟩ ⟨1, doubleTy, ⟨10, 15⟩⟩).2.2.2.1 checkPreStmt_powTwo,
    by decide,
    (bugtype_fields_change_only_on_report_path new
      (resetSqrtBugType new "Function argument is negative, domain error"
        "Math func input args error")
      (call [intTy]) sqrtMinusOneHost [sqrtMinusOneReport]
      ⟨0, intTy, ⟨0, 5⟩⟩ ⟨0, intTy, ⟨0, 5⟩⟩).2.2.2.2.1 rfl,
    by decide,
    (bugtype_fields_change_only_on_report_path new
      (resetPowBugtype new
        "Pole error: if first argument is 0, second argument must be positive"
        "Math func input args error")
      (call [intTy, intTy]) powZeroMinusOneHost [powZeroMinusOneReport]
      ⟨0, intTy, ⟨0, 5⟩⟩ ⟨1, intTy, ⟨10, 15⟩⟩).2.2.2.2.2 rfl⟩

end MathFuncParamChecker
